import Mathlib

/-!
Verification development for the `surveilr/std` drizzle schema
(`src/drizzle/models.ts`).

The repository consists of SQLite table definitions written with the
drizzle ORM.  We embed the schema at two levels:

1. a *schema-level* embedding: every table is a `Table` value recording its
   SQL name, its column names (in declaration order), its primary key, its
   declared `unique(...)` constraints, the columns guarded by the
   `checkJSON` helper (`json_valid(c) OR c IS NULL`), and its foreign keys.
   Plain (non-unique) indexes carry no integrity semantics and are omitted.

2. a *row-level* embedding for the tables the verified properties are
   about: typed row structures with one field per source column, validity
   predicates transcribing the declared constraints (SQLite semantics:
   `UNIQUE` treats `NULL`s as distinct), and store operations.
-/

namespace SurveilrStd

/-- A foreign-key constraint: local columns, referenced table, referenced
columns.  Transcribed from `.references(...)` / `foreignKey(...)` clauses. -/
structure FKey where
  cols : List String
  refTable : String
  refCols : List String
  deriving DecidableEq, Repr

/-- Schema-level description of one drizzle table from
`src/drizzle/models.ts`: SQL table name, column SQL names in declaration
order, primary-key columns, `unique(...)` constraints (as column lists),
columns wrapped in `checkJSON` (the `json_valid(c) OR c IS NULL` check),
and foreign keys. -/
structure Table where
  name : String
  columns : List String
  primaryKey : List String
  uniques : List (List String)
  jsonChecked : List String
  fkeys : List FKey
  deriving DecidableEq, Repr

/-- The common housekeeping envelope spread into most tables
(`export const housekeeping` in the source), as SQL column names. -/
def housekeepingColumns : List String :=
  ["created_at", "created_by", "updated_at", "updated_by",
   "deleted_at", "deleted_by", "activity_log"]

/-- `sqlean_define` table. -/
def sqleanDefine : Table :=
  { name := "sqlean_define"
    columns := ["name", "type", "body"]
    primaryKey := ["name"]
    uniques := []
    jsonChecked := []
    fkeys := [] }

/-- `assurance_schema` table. -/
def assuranceSchema : Table :=
  { name := "assurance_schema"
    columns := ["assurance_schema_id", "assurance_type", "code", "code_json",
      "governance"] ++ housekeepingColumns
    primaryKey := ["assurance_schema_id"]
    uniques := []
    jsonChecked := ["code_json", "governance"]
    fkeys := [] }

/-- `device` table. -/
def device : Table :=
  { name := "device"
    columns := ["device_id", "name", "state", "boundary", "segmentation",
      "state_sysinfo", "elaboration"] ++ housekeepingColumns
    primaryKey := ["device_id"]
    uniques := [["name", "state", "boundary"]]
    jsonChecked := ["state", "segmentation", "state_sysinfo", "elaboration"]
    fkeys := [] }

/-- `code_notebook_kernel` table. -/
def codeNotebookKernel : Table :=
  { name := "code_notebook_kernel"
    columns := ["code_notebook_kernel_id", "kernel_name", "description",
      "mime_type", "file_extn", "elaboration", "governance"] ++ housekeepingColumns
    primaryKey := ["code_notebook_kernel_id"]
    uniques := [["kernel_name"]]
    jsonChecked := ["elaboration", "governance"]
    fkeys := [] }

/-- `code_notebook_cell` table. -/
def codeNotebookCell : Table :=
  { name := "code_notebook_cell"
    columns := ["code_notebook_cell_id", "notebook_kernel_id", "notebook_name",
      "cell_name", "cell_governance", "interpretable_code",
      "interpretable_code_hash", "description", "arguments"] ++ housekeepingColumns
    primaryKey := ["code_notebook_cell_id"]
    uniques := [["notebook_name", "cell_name", "interpretable_code_hash"]]
    jsonChecked := ["cell_governance", "arguments"]
    fkeys := [⟨["notebook_kernel_id"], "code_notebook_kernel",
      ["code_notebook_kernel_id"]⟩] }

/-- `code_notebook_state` table. -/
def codeNotebookState : Table :=
  { name := "code_notebook_state"
    columns := ["code_notebook_state_id", "code_notebook_cell_id", "from_state",
      "to_state", "transition_result", "transition_reason", "transitioned_at",
      "elaboration"] ++ housekeepingColumns
    primaryKey := ["code_notebook_state_id"]
    uniques := [["code_notebook_cell_id", "from_state", "to_state"]]
    jsonChecked := ["transition_result", "elaboration"]
    fkeys := [⟨["code_notebook_cell_id"], "code_notebook_cell",
      ["code_notebook_cell_id"]⟩] }

/-- `sqlpage_files` table. -/
def sqlpageFiles : Table :=
  { name := "sqlpage_files"
    columns := ["path", "contents", "last_modified"]
    primaryKey := ["path"]
    uniques := []
    jsonChecked := []
    fkeys := [] }

/-- `surveilr_table_size` table. -/
def surveilrTableSize : Table :=
  { name := "surveilr_table_size"
    columns := ["table_name", "table_size_mb"]
    primaryKey := ["table_name"]
    uniques := []
    jsonChecked := []
    fkeys := [] }

/-- `sqlpage_aide_navigation` table. -/
def sqlpageAideNavigation : Table :=
  { name := "sqlpage_aide_navigation"
    columns := ["path", "caption", "namespace", "parent_path", "sibling_order",
      "url", "title", "abbreviated_caption", "description", "elaboration"]
    primaryKey := []
    uniques := [["namespace", "parent_path", "path"]]
    jsonChecked := []
    fkeys := [] }

/-- `party_type` table. -/
def partyType : Table :=
  { name := "party_type"
    columns := ["party_type_id", "code", "value"] ++ housekeepingColumns
    primaryKey := ["party_type_id"]
    uniques := [["code"]]
    jsonChecked := []
    fkeys := [] }

/-- `party` table. -/
def party : Table :=
  { name := "party"
    columns := ["party_id", "party_type_id", "party_name", "elaboration"] ++
      housekeepingColumns
    primaryKey := ["party_id"]
    uniques := []
    jsonChecked := []
    fkeys := [⟨["party_type_id"], "party_type", ["party_type_id"]⟩] }

/-- `party_relation_type` table. -/
def partyRelationType : Table :=
  { name := "party_relation_type"
    columns := ["party_relation_type_id", "code", "value"] ++ housekeepingColumns
    primaryKey := ["party_relation_type_id"]
    uniques := [["code"]]
    jsonChecked := []
    fkeys := [] }

/-- `party_relation` table. -/
def partyRelation : Table :=
  { name := "party_relation"
    columns := ["party_relation_id", "party_id", "related_party_id",
      "relation_type_id", "elaboration"] ++ housekeepingColumns
    primaryKey := ["party_relation_id"]
    uniques := [["party_id", "related_party_id", "relation_type_id"]]
    jsonChecked := ["elaboration"]
    fkeys := [⟨["party_id"], "party", ["party_id"]⟩,
      ⟨["related_party_id"], "party", ["party_id"]⟩,
      ⟨["relation_type_id"], "party_relation_type", ["party_relation_type_id"]⟩] }

/-- `gender_type` table. -/
def genderType : Table :=
  { name := "gender_type"
    columns := ["gender_type_id", "code", "value"] ++ housekeepingColumns
    primaryKey := ["gender_type_id"]
    uniques := [["code"]]
    jsonChecked := []
    fkeys := [] }

/-- `sex_type` table. -/
def sexType : Table :=
  { name := "sex_type"
    columns := ["sex_type_id", "code", "value"] ++ housekeepingColumns
    primaryKey := ["sex_type_id"]
    uniques := [["code"]]
    jsonChecked := []
    fkeys := [] }

/-- `person_type` table. -/
def personType : Table :=
  { name := "person_type"
    columns := ["person_type_id", "code", "value"] ++ housekeepingColumns
    primaryKey := ["person_type_id"]
    uniques := [["code"]]
    jsonChecked := []
    fkeys := [] }

/-- `person` table. -/
def person : Table :=
  { name := "person"
    columns := ["person_id", "party_id", "person_type_id", "person_first_name",
      "person_middle_name", "person_last_name", "previous_name",
      "honorific_prefix", "honorific_suffix", "gender_id", "sex_id",
      "elaboration"] ++ housekeepingColumns
    primaryKey := ["person_id"]
    uniques := []
    jsonChecked := ["elaboration"]
    fkeys := [⟨["party_id"], "party", ["party_id"]⟩,
      ⟨["person_type_id"], "person_type", ["person_type_id"]⟩,
      ⟨["gender_id"], "gender_type", ["gender_type_id"]⟩,
      ⟨["sex_id"], "sex_type", ["sex_type_id"]⟩] }

/-- `organization` table. -/
def organization : Table :=
  { name := "organization"
    columns := ["organization_id", "party_id", "name", "alias", "description",
      "license", "federal_tax_id_num", "registration_date", "elaboration"] ++
      housekeepingColumns
    primaryKey := ["organization_id"]
    uniques := []
    jsonChecked := ["elaboration"]
    fkeys := [⟨["party_id"], "party", ["party_id"]⟩] }

/-- `organization_role_type` table. -/
def organizationRoleType : Table :=
  { name := "organization_role_type"
    columns := ["organization_role_type_id", "code", "value"] ++ housekeepingColumns
    primaryKey := ["organization_role_type_id"]
    uniques := [["code"]]
    jsonChecked := []
    fkeys := [] }

/-- `organization_role` table.  Note: in the source both `person_id` and
`organization_id` reference `party.party_id`. -/
def organizationRole : Table :=
  { name := "organization_role"
    columns := ["organization_role_id", "person_id", "organization_id",
      "organization_role_type_id", "elaboration"] ++ housekeepingColumns
    primaryKey := ["organization_role_id"]
    uniques := [["person_id", "organization_id", "organization_role_type_id"]]
    jsonChecked := ["elaboration"]
    fkeys := [⟨["person_id"], "party", ["party_id"]⟩,
      ⟨["organization_id"], "party", ["party_id"]⟩,
      ⟨["organization_role_type_id"], "organization_role_type",
        ["organization_role_type_id"]⟩] }

/-- `device_party_relationship` table. -/
def devicePartyRelationship : Table :=
  { name := "device_party_relationship"
    columns := ["device_party_relationship_id", "device_id", "party_id",
      "elaboration"] ++ housekeepingColumns
    primaryKey := ["device_party_relationship_id"]
    uniques := [["device_id", "party_id"]]
    jsonChecked := ["elaboration"]
    fkeys := [⟨["device_id"], "device", ["device_id"]⟩,
      ⟨["party_id"], "party", ["party_id"]⟩] }

/-- `behavior` table.  Note: `device_id` is `notNull` but carries no
`.references(...)` clause in the source. -/
def behavior : Table :=
  { name := "behavior"
    columns := ["behavior_id", "device_id", "behavior_name",
      "behavior_conf_json", "assurance_schema_id", "governance"] ++
      housekeepingColumns
    primaryKey := ["behavior_id"]
    uniques := [["device_id", "behavior_name"]]
    jsonChecked := ["behavior_conf_json", "governance"]
    fkeys := [] }

/-- `ur_ingest_resource_path_match_rule` table. -/
def urIngestResourcePathMatchRule : Table :=
  { name := "ur_ingest_resource_path_match_rule"
    columns := ["ur_ingest_resource_path_match_rule_id", "namespace", "regex",
      "flags", "nature", "priority", "description", "include_glob_patterns",
      "exclude_glob_patterns", "elaboration"] ++ housekeepingColumns
    primaryKey := ["ur_ingest_resource_path_match_rule_id"]
    uniques := [["namespace", "regex"]]
    jsonChecked := ["elaboration"]
    fkeys := [] }

/-- `ur_ingest_resource_path_rewrite_rule` table. -/
def urIngestResourcePathRewriteRule : Table :=
  { name := "ur_ingest_resource_path_rewrite_rule"
    columns := ["ur_ingest_resource_path_rewrite_rule_id", "namespace", "regex",
      "replace", "priority", "description", "elaboration"] ++ housekeepingColumns
    primaryKey := ["ur_ingest_resource_path_rewrite_rule_id"]
    uniques := [["namespace", "regex", "replace"]]
    jsonChecked := ["elaboration"]
    fkeys := [] }

/-- `ur_ingest_session` table.  The declared unique key is
`(device_id, created_at)` — `created_at` being the housekeeping creation
timestamp. -/
def urIngestSession : Table :=
  { name := "ur_ingest_session"
    columns := ["ur_ingest_session_id", "device_id", "behavior_id",
      "behavior_json", "ingest_started_at", "ingest_finished_at",
      "session_agent", "elaboration"] ++ housekeepingColumns
    primaryKey := ["ur_ingest_session_id"]
    uniques := [["device_id", "created_at"]]
    jsonChecked := ["behavior_json", "session_agent", "elaboration"]
    fkeys := [⟨["device_id"], "device", ["device_id"]⟩,
      ⟨["behavior_id"], "behavior", ["behavior_id"]⟩] }

/-- `ur_ingest_session_fs_path` table. -/
def urIngestSessionFsPath : Table :=
  { name := "ur_ingest_session_fs_path"
    columns := ["ur_ingest_session_fs_path_id", "ingest_session_id",
      "root_path", "include_glob_patterns", "exclude_glob_patterns",
      "elaboration"] ++ housekeepingColumns
    primaryKey := ["ur_ingest_session_fs_path_id"]
    uniques := [["ingest_session_id", "root_path", "created_at"]]
    jsonChecked := ["elaboration"]
    fkeys := [⟨["ingest_session_id"], "ur_ingest_session",
      ["ur_ingest_session_id"]⟩] }

/-- `uniform_resource` table: the content-addressed resource store.  The
declared unique (dedup) key is `(device_id, content_digest, uri, size_bytes)`. -/
def uniformResource : Table :=
  { name := "uniform_resource"
    columns := ["uniform_resource_id", "device_id", "ingest_session_id",
      "ingest_fs_path_id", "ingest_session_imap_acct_folder_message",
      "ingest_issue_acct_project_id", "uri", "content_digest", "content",
      "nature", "size_bytes", "last_modified_at", "content_fm_body_attrs",
      "frontmatter", "elaboration"] ++ housekeepingColumns
    primaryKey := ["uniform_resource_id"]
    uniques := [["device_id", "content_digest", "uri", "size_bytes"]]
    jsonChecked := ["content_fm_body_attrs", "frontmatter", "elaboration"]
    fkeys := [⟨["device_id"], "device", ["device_id"]⟩,
      ⟨["ingest_session_id"], "ur_ingest_session", ["ur_ingest_session_id"]⟩,
      ⟨["ingest_fs_path_id"], "ur_ingest_session_fs_path",
        ["ur_ingest_session_fs_path_id"]⟩,
      ⟨["ingest_session_imap_acct_folder_message"],
        "ur_ingest_session_imap_acct_folder_message",
        ["ur_ingest_session_imap_acct_folder_message_id"]⟩,
      ⟨["ingest_issue_acct_project_id"], "ur_ingest_session_plm_acct_project",
        ["ur_ingest_session_plm_acct_project_id"]⟩] }

/-- `uniform_resource_transform` table: derived artifacts, unique on
`(uniform_resource_id, content_digest, nature, size_bytes)`. -/
def uniformResourceTransform : Table :=
  { name := "uniform_resource_transform"
    columns := ["uniform_resource_transform_id", "uniform_resource_id", "uri",
      "content_digest", "content", "nature", "size_bytes", "elaboration"] ++
      housekeepingColumns
    primaryKey := ["uniform_resource_transform_id"]
    uniques := [["uniform_resource_id", "content_digest", "nature", "size_bytes"]]
    jsonChecked := ["elaboration"]
    fkeys := [⟨["uniform_resource_id"], "uniform_resource",
      ["uniform_resource_id"]⟩] }

/-- `ur_ingest_session_fs_path_entry` table. -/
def urIngestSessionFsPathEntry : Table :=
  { name := "ur_ingest_session_fs_path_entry"
    columns := ["ur_ingest_session_fs_path_entry_id", "ingest_session_id",
      "ingest_fs_path_id", "uniform_resource_id", "file_path_abs",
      "file_path_rel_parent", "file_path_rel", "file_basename", "file_extn",
      "captured_executable", "ur_status", "ur_diagnostics",
      "ur_transformations", "elaboration"] ++ housekeepingColumns
    primaryKey := ["ur_ingest_session_fs_path_entry_id"]
    uniques := [["ingest_session_id", "ingest_fs_path_id", "file_path_abs"]]
    jsonChecked := ["captured_executable", "ur_diagnostics",
      "ur_transformations", "elaboration"]
    fkeys := [⟨["ingest_session_id"], "ur_ingest_session",
        ["ur_ingest_session_id"]⟩,
      ⟨["ingest_fs_path_id"], "ur_ingest_session_fs_path",
        ["ur_ingest_session_fs_path_id"]⟩,
      ⟨["uniform_resource_id"], "uniform_resource", ["uniform_resource_id"]⟩] }

/-- `ur_ingest_session_task` table. -/
def urIngestSessionTask : Table :=
  { name := "ur_ingest_session_task"
    columns := ["ur_ingest_session_task_id", "ingest_session_id",
      "uniform_resource_id", "captured_executable", "ur_status",
      "ur_diagnostics", "ur_transformations", "elaboration"] ++
      housekeepingColumns
    primaryKey := ["ur_ingest_session_task_id"]
    uniques := []
    jsonChecked := ["captured_executable", "ur_diagnostics",
      "ur_transformations", "elaboration"]
    fkeys := [⟨["ingest_session_id"], "ur_ingest_session",
        ["ur_ingest_session_id"]⟩,
      ⟨["uniform_resource_id"], "uniform_resource", ["uniform_resource_id"]⟩] }

/-- `ur_ingest_session_imap_account` table.  Note: its `elaboration` column
carries no `checkJSON`. -/
def urIngestSessionImapAccount : Table :=
  { name := "ur_ingest_session_imap_account"
    columns := ["ur_ingest_session_imap_account_id", "ingest_session_id",
      "email", "password", "host", "elaboration"] ++ housekeepingColumns
    primaryKey := ["ur_ingest_session_imap_account_id"]
    uniques := [["ingest_session_id", "email"]]
    jsonChecked := []
    fkeys := [⟨["ingest_session_id"], "ur_ingest_session",
      ["ur_ingest_session_id"]⟩] }

/-- `ur_ingest_session_imap_acct_folder` table. -/
def urIngestSessionImapAcctFolder : Table :=
  { name := "ur_ingest_session_imap_acct_folder"
    columns := ["ur_ingest_session_imap_acct_folder_id", "ingest_session_id",
      "ingest_account_id", "folder_name", "include_senders", "exclude_senders",
      "elaboration"] ++ housekeepingColumns
    primaryKey := ["ur_ingest_session_imap_acct_folder_id"]
    uniques := [["ingest_account_id", "folder_name"]]
    jsonChecked := []
    fkeys := [⟨["ingest_session_id"], "ur_ingest_session",
        ["ur_ingest_session_id"]⟩,
      ⟨["ingest_account_id"], "ur_ingest_session_imap_account",
        ["ur_ingest_session_imap_account_id"]⟩] }

/-- `ur_ingest_session_imap_acct_folder_message` table. -/
def urIngestSessionImapAcctFolderMessage : Table :=
  { name := "ur_ingest_session_imap_acct_folder_message"
    columns := ["ur_ingest_session_imap_acct_folder_message_id",
      "ingest_session_id", "ingest_imap_acct_folder_id", "message",
      "message_id", "subject", "from", "cc", "bcc", "status", "date",
      "email_references"] ++ housekeepingColumns
    primaryKey := ["ur_ingest_session_imap_acct_folder_message_id"]
    uniques := [["message", "message_id"]]
    jsonChecked := ["cc", "bcc", "email_references"]
    fkeys := [⟨["ingest_session_id"], "ur_ingest_session",
        ["ur_ingest_session_id"]⟩,
      ⟨["ingest_imap_acct_folder_id"], "ur_ingest_session_imap_acct_folder",
        ["ur_ingest_session_imap_acct_folder_id"]⟩] }

/-- `ur_ingest_session_plm_account` table. -/
def urIngestSessionPlmAccount : Table :=
  { name := "ur_ingest_session_plm_account"
    columns := ["ur_ingest_session_plm_account_id", "ingest_session_id",
      "provider", "org_name", "elaboration"] ++ housekeepingColumns
    primaryKey := ["ur_ingest_session_plm_account_id"]
    uniques := [["provider", "org_name"]]
    jsonChecked := ["elaboration"]
    fkeys := [⟨["ingest_session_id"], "ur_ingest_session",
      ["ur_ingest_session_id"]⟩] }

/-- `ur_ingest_session_plm_acct_project` table. -/
def urIngestSessionPlmAcctProject : Table :=
  { name := "ur_ingest_session_plm_acct_project"
    columns := ["ur_ingest_session_plm_acct_project_id", "ingest_session_id",
      "ingest_account_id", "parent_project_id", "name", "description", "id",
      "key", "elaboration"] ++ housekeepingColumns
    primaryKey := ["ur_ingest_session_plm_acct_project_id"]
    uniques := [["name", "description"]]
    jsonChecked := ["elaboration"]
    fkeys := [⟨["ingest_session_id"], "ur_ingest_session",
        ["ur_ingest_session_id"]⟩,
      ⟨["ingest_account_id"], "ur_ingest_session_plm_account",
        ["ur_ingest_session_plm_account_id"]⟩] }

/-- `ur_ingest_session_plm_user` table. -/
def urIngestSessionPlmUser : Table :=
  { name := "ur_ingest_session_plm_user"
    columns := ["ur_ingest_session_plm_user_id", "user_id", "login", "email",
      "name", "url", "elaboration"] ++ housekeepingColumns
    primaryKey := ["ur_ingest_session_plm_user_id"]
    uniques := [["user_id", "login"]]
    jsonChecked := ["elaboration"]
    fkeys := [] }

/-- `ur_ingest_session_plm_issue_type` table. -/
def urIngestSessionPlmIssueType : Table :=
  { name := "ur_ingest_session_plm_issue_type"
    columns := ["ur_ingest_session_plm_issue_type_id", "avatar_id",
      "description", "icon_url", "id", "name", "subtask", "url",
      "elaboration"] ++ housekeepingColumns
    primaryKey := ["ur_ingest_session_plm_issue_type_id"]
    uniques := [["id", "name"]]
    jsonChecked := ["elaboration"]
    fkeys := [] }

/-- `ur_ingest_session_plm_acct_project_issue` table. -/
def urIngestSessionPlmAcctProjectIssue : Table :=
  { name := "ur_ingest_session_plm_acct_project_issue"
    columns := ["ur_ingest_session_plm_acct_project_issue_id",
      "ingest_session_id", "ur_ingest_session_plm_acct_project_id",
      "uniform_resource_id", "issue_id", "issue_number", "parent_issue_id",
      "title", "body", "body_text", "body_html", "state", "assigned_to",
      "user", "url", "closed_at", "issue_type_id", "time_estimate",
      "aggregate_time_estimate", "time_original_estimate", "time_spent",
      "aggregate_time_spent", "aggregate_time_original_estimate", "workratio",
      "current_progress", "total_progress", "resolution_name",
      "resolution_date", "elaboration"] ++ housekeepingColumns
    primaryKey := ["ur_ingest_session_plm_acct_project_issue_id"]
    uniques := [["title", "issue_id", "state", "assigned_to"]]
    jsonChecked := ["elaboration"]
    fkeys := [⟨["ingest_session_id"], "ur_ingest_session",
        ["ur_ingest_session_id"]⟩,
      ⟨["ur_ingest_session_plm_acct_project_id"],
        "ur_ingest_session_plm_acct_project",
        ["ur_ingest_session_plm_acct_project_id"]⟩,
      ⟨["uniform_resource_id"], "uniform_resource", ["uniform_resource_id"]⟩,
      ⟨["user"], "ur_ingest_session_plm_user",
        ["ur_ingest_session_plm_user_id"]⟩,
      ⟨["issue_type_id"], "ur_ingest_session_plm_issue_type",
        ["ur_ingest_session_plm_issue_type_id"]⟩] }

/-- `ur_ingest_session_plm_acct_label` table. -/
def urIngestSessionPlmAcctLabel : Table :=
  { name := "ur_ingest_session_plm_acct_label"
    columns := ["ur_ingest_session_plm_acct_label_id",
      "ur_ingest_session_plm_acct_project_id",
      "ur_ingest_session_plm_acct_project_issue_id", "label", "elaboration"] ++
      housekeepingColumns
    primaryKey := ["ur_ingest_session_plm_acct_label_id"]
    uniques := []
    jsonChecked := ["elaboration"]
    fkeys := [⟨["ur_ingest_session_plm_acct_project_id"],
        "ur_ingest_session_plm_acct_project",
        ["ur_ingest_session_plm_acct_project_id"]⟩,
      ⟨["ur_ingest_session_plm_acct_project_issue_id"],
        "ur_ingest_session_plm_acct_project_issue",
        ["ur_ingest_session_plm_acct_project_issue_id"]⟩] }

/-- `ur_ingest_session_plm_milestone` table. -/
def urIngestSessionPlmMilestone : Table :=
  { name := "ur_ingest_session_plm_milestone"
    columns := ["ur_ingest_session_plm_milestone_id",
      "ur_ingest_session_plm_acct_project_id", "title", "milestone_id", "url",
      "html_url", "open_issues", "closed_issues", "due_on", "closed_at",
      "elaboration"] ++ housekeepingColumns
    primaryKey := ["ur_ingest_session_plm_milestone_id"]
    uniques := []
    jsonChecked := ["elaboration"]
    fkeys := [⟨["ur_ingest_session_plm_acct_project_id"],
      "ur_ingest_session_plm_acct_project",
      ["ur_ingest_session_plm_acct_project_id"]⟩] }

/-- `ur_ingest_session_plm_acct_relationship` table. -/
def urIngestSessionPlmAcctRelationship : Table :=
  { name := "ur_ingest_session_plm_acct_relationship"
    columns := ["ur_ingest_session_plm_acct_relationship_id",
      "ur_ingest_session_plm_acct_project_id_prime",
      "ur_ingest_session_plm_acct_project_id_related",
      "ur_ingest_session_plm_acct_project_issue_id_prime",
      "ur_ingest_session_plm_acct_project_issue_id_related", "relationship",
      "elaboration"] ++ housekeepingColumns
    primaryKey := ["ur_ingest_session_plm_acct_relationship_id"]
    uniques := []
    jsonChecked := ["elaboration"]
    fkeys := [⟨["ur_ingest_session_plm_acct_project_id_prime"],
        "ur_ingest_session_plm_acct_project",
        ["ur_ingest_session_plm_acct_project_id"]⟩,
      ⟨["ur_ingest_session_plm_acct_project_issue_id_prime"],
        "ur_ingest_session_plm_acct_project_issue",
        ["ur_ingest_session_plm_acct_project_issue_id"]⟩] }

/-- `ur_ingest_session_plm_comment` table. -/
def urIngestSessionPlmComment : Table :=
  { name := "ur_ingest_session_plm_comment"
    columns := ["ur_ingest_session_plm_comment_id",
      "ur_ingest_session_plm_acct_project_issue_id", "comment_id", "node_id",
      "url", "body", "body_text", "body_html", "user", "elaboration"] ++
      housekeepingColumns
    primaryKey := ["ur_ingest_session_plm_comment_id"]
    uniques := [["comment_id", "url", "body"]]
    jsonChecked := ["elaboration"]
    fkeys := [⟨["ur_ingest_session_plm_acct_project_issue_id"],
        "ur_ingest_session_plm_acct_project_issue",
        ["ur_ingest_session_plm_acct_project_issue_id"]⟩,
      ⟨["user"], "ur_ingest_session_plm_user",
        ["ur_ingest_session_plm_user_id"]⟩] }

/-- `ur_ingest_session_plm_reaction` table. -/
def urIngestSessionPlmReaction : Table :=
  { name := "ur_ingest_session_plm_reaction"
    columns := ["ur_ingest_session_plm_reaction_id", "reaction_id",
      "reaction_type", "elaboration"] ++ housekeepingColumns
    primaryKey := ["ur_ingest_session_plm_reaction_id"]
    uniques := [["reaction_type"]]
    jsonChecked := ["elaboration"]
    fkeys := [] }

/-- `ur_ingest_session_plm_issue_reaction` table. -/
def urIngestSessionPlmIssueReaction : Table :=
  { name := "ur_ingest_session_plm_issue_reaction"
    columns := ["ur_ingest_session_plm_issue_reaction_id",
      "ur_ingest_plm_reaction_id", "ur_ingest_plm_issue_id", "count",
      "elaboration"] ++ housekeepingColumns
    primaryKey := ["ur_ingest_session_plm_issue_reaction_id"]
    uniques := [["ur_ingest_plm_issue_id", "ur_ingest_plm_reaction_id"]]
    jsonChecked := ["elaboration"]
    fkeys := [⟨["ur_ingest_plm_reaction_id"], "ur_ingest_session_plm_reaction",
        ["ur_ingest_session_plm_reaction_id"]⟩,
      ⟨["ur_ingest_plm_issue_id"], "ur_ingest_session_plm_acct_project_issue",
        ["ur_ingest_session_plm_acct_project_issue_id"]⟩] }

/-- `ur_ingest_session_attachment` table.  Note: its `elaboration` column
carries no `checkJSON`. -/
def urIngestSessionAttachment : Table :=
  { name := "ur_ingest_session_attachment"
    columns := ["ur_ingest_session_attachment_id", "uniform_resource_id",
      "name", "uri", "content", "nature", "size", "checksum", "elaboration"] ++
      housekeepingColumns
    primaryKey := ["ur_ingest_session_attachment_id"]
    uniques := [["uniform_resource_id", "checksum", "nature", "size"]]
    jsonChecked := []
    fkeys := [⟨["uniform_resource_id"], "uniform_resource",
      ["uniform_resource_id"]⟩] }

/-- `ur_ingest_session_udi_pgp_sql` table. -/
def urIngestSessionUdiPgpSql : Table :=
  { name := "ur_ingest_session_udi_pgp_sql"
    columns := ["ur_ingest_session_udi_pgp_sql_id", "sql", "nature", "content",
      "behaviour", "query_error", "uniform_resource_id", "ingest_session_id"] ++
      housekeepingColumns
    primaryKey := ["ur_ingest_session_udi_pgp_sql_id"]
    uniques := [["sql", "ingest_session_id"]]
    jsonChecked := ["behaviour"]
    fkeys := [⟨["uniform_resource_id"], "uniform_resource",
        ["uniform_resource_id"]⟩,
      ⟨["ingest_session_id"], "ur_ingest_session", ["ur_ingest_session_id"]⟩] }

/-- `orchestration_nature` table. -/
def orchestrationNature : Table :=
  { name := "orchestration_nature"
    columns := ["orchestration_nature_id", "nature", "elaboration"] ++
      housekeepingColumns
    primaryKey := ["orchestration_nature_id"]
    uniques := [["orchestration_nature_id", "nature"]]
    jsonChecked := []
    fkeys := [] }

/-- `orchestration_session` table.  Note: no housekeeping columns are
spread into this table in the source. -/
def orchestrationSession : Table :=
  { name := "orchestration_session"
    columns := ["orchestration_session_id", "device_id",
      "orchestration_nature_id", "version", "orch_started_at",
      "orch_finished_at", "elaboration", "args_json", "diagnostics_json",
      "diagnostics_md"]
    primaryKey := ["orchestration_session_id"]
    uniques := []
    jsonChecked := ["elaboration", "args_json", "diagnostics_json"]
    fkeys := [⟨["device_id"], "device", ["device_id"]⟩,
      ⟨["orchestration_nature_id"], "orchestration_nature",
        ["orchestration_nature_id"]⟩] }

/-- `orchestration_session_entry` table (no housekeeping, no checks). -/
def orchestrationSessionEntry : Table :=
  { name := "orchestration_session_entry"
    columns := ["orchestration_session_entry_id", "session_id", "ingest_src",
      "ingest_table_name", "elaboration"]
    primaryKey := ["orchestration_session_entry_id"]
    uniques := []
    jsonChecked := []
    fkeys := [⟨["session_id"], "orchestration_session",
      ["orchestration_session_id"]⟩] }

/-- `orchestration_session_state` table.  The declared unique constraint is
`(orchestration_session_state_id, from_state, to_state)` — the first
component is the table's own primary key, not the owning session id. -/
def orchestrationSessionState : Table :=
  { name := "orchestration_session_state"
    columns := ["orchestration_session_state_id", "session_id",
      "session_entry_id", "from_state", "to_state", "transition_result",
      "transition_reason", "transitioned_at", "elaboration"]
    primaryKey := ["orchestration_session_state_id"]
    uniques := [["orchestration_session_state_id", "from_state", "to_state"]]
    jsonChecked := []
    fkeys := [⟨["session_id"], "orchestration_session",
        ["orchestration_session_id"]⟩,
      ⟨["session_entry_id"], "orchestration_session_entry",
        ["orchestration_session_entry_id"]⟩] }

/-- `orchestration_session_exec` table.  `parent_exec_id` carries a
self-referential foreign key to `orchestration_session_exec_id`; no
constraint involves `session_id` together with the parent. -/
def orchestrationSessionExec : Table :=
  { name := "orchestration_session_exec"
    columns := ["orchestration_session_exec_id", "exec_nature", "session_id",
      "session_entry_id", "parent_exec_id", "namespace", "exec_identity",
      "exec_code", "exec_status", "input_text", "exec_error_text",
      "output_text", "output_nature", "narrative_md", "elaboration"]
    primaryKey := ["orchestration_session_exec_id"]
    uniques := []
    jsonChecked := []
    fkeys := [⟨["session_id"], "orchestration_session",
        ["orchestration_session_id"]⟩,
      ⟨["session_entry_id"], "orchestration_session_entry",
        ["orchestration_session_entry_id"]⟩,
      ⟨["parent_exec_id"], "orchestration_session_exec",
        ["orchestration_session_exec_id"]⟩] }

/-- `orchestration_session_issue` table (no housekeeping, no checks). -/
def orchestrationSessionIssue : Table :=
  { name := "orchestration_session_issue"
    columns := ["orchestration_session_issue_id", "session_id",
      "session_entry_id", "issue_type", "issue_message", "issue_row",
      "issue_column", "invalid_value", "remediation", "elaboration"]
    primaryKey := ["orchestration_session_issue_id"]
    uniques := []
    jsonChecked := []
    fkeys := [⟨["session_id"], "orchestration_session",
        ["orchestration_session_id"]⟩,
      ⟨["session_entry_id"], "orchestration_session_entry",
        ["orchestration_session_entry_id"]⟩] }

/-- `orchestration_session_issue_relation` table. -/
def orchestrationSessionIssueRelation : Table :=
  { name := "orchestration_session_issue_relation"
    columns := ["orchestration_session_issue_relation_id", "issue_id_prime",
      "issue_id_rel", "relationship_nature", "elaboration"]
    primaryKey := ["orchestration_session_issue_relation_id"]
    uniques := []
    jsonChecked := []
    fkeys := [⟨["issue_id_prime"], "orchestration_session_issue",
      ["orchestration_session_issue_id"]⟩] }

/-- `orchestration_session_log` table (self-referential parent pointer). -/
def orchestrationSessionLog : Table :=
  { name := "orchestration_session_log"
    columns := ["orchestration_session_log_id", "category", "parent_exec_id",
      "content", "sibling_order", "elaboration"]
    primaryKey := ["orchestration_session_log_id"]
    uniques := []
    jsonChecked := []
    fkeys := [⟨["parent_exec_id"], "orchestration_session_log",
      ["orchestration_session_log_id"]⟩] }

/-- `uniform_resource_graph` table. -/
def uniformResourceGraph : Table :=
  { name := "uniform_resource_graph"
    columns := ["name", "elaboration"]
    primaryKey := ["name"]
    uniques := []
    jsonChecked := []
    fkeys := [] }

/-- `uniform_resource_edge` table: unique on
`(graph_name, nature, node_id, uniform_resource_id)`, with `graph_name`
referencing `uniform_resource_graph.name`. -/
def uniformResourceEdge : Table :=
  { name := "uniform_resource_edge"
    columns := ["graph_name", "nature", "node_id", "uniform_resource_id",
      "elaboration"]
    primaryKey := []
    uniques := [["graph_name", "nature", "node_id", "uniform_resource_id"]]
    jsonChecked := []
    fkeys := [⟨["graph_name"], "uniform_resource_graph", ["name"]⟩,
      ⟨["uniform_resource_id"], "uniform_resource", ["uniform_resource_id"]⟩] }

/-- `surveilr_osquery_ms_node` table. -/
def surveilrOsqueryMsNode : Table :=
  { name := "surveilr_osquery_ms_node"
    columns := ["surveilr_osquery_ms_node_id", "node_key", "host_identifier",
      "tls_cert_subject", "os_version", "platform", "last_seen", "status",
      "osquery_version", "osquery_build_platform", "device_id", "behavior_id",
      "accelerate"] ++ housekeepingColumns
    primaryKey := ["surveilr_osquery_ms_node_id"]
    uniques := [["host_identifier", "os_version"], ["node_key"]]
    jsonChecked := []
    fkeys := [⟨["device_id"], "device", ["device_id"]⟩,
      ⟨["behavior_id"], "behavior", ["behavior_id"]⟩] }

/-- `ur_ingest_session_osquery_ms_log` table. -/
def urIngestSessionOsqueryMsLog : Table :=
  { name := "ur_ingest_session_osquery_ms_log"
    columns := ["ur_ingest_session_osquery_ms_log_id", "node_key", "log_type",
      "log_data", "applied_jq_filters"] ++ housekeepingColumns
    primaryKey := ["ur_ingest_session_osquery_ms_log_id"]
    uniques := [["node_key", "log_type", "log_data"]]
    jsonChecked := []
    fkeys := [⟨["node_key"], "surveilr_osquery_ms_node", ["node_key"]⟩] }

/-- `osquery_policy` table. -/
def osqueryPolicy : Table :=
  { name := "osquery_policy"
    columns := ["osquery_policy_id", "policy_group", "policy_name",
      "osquery_code", "policy_description", "policy_pass_label",
      "policy_fail_label", "policy_pass_remarks", "policy_fail_remarks",
      "osquery_platforms"] ++ housekeepingColumns
    primaryKey := ["osquery_policy_id"]
    uniques := [["policy_name", "osquery_code"]]
    jsonChecked := []
    fkeys := [] }

/-- `surveilr_osquery_ms_distributed_query` table. -/
def surveilrOsqueryMsDistributedQuery : Table :=
  { name := "surveilr_osquery_ms_distributed_query"
    columns := ["query_id", "node_key", "query_name", "query_sql",
      "discovery_query", "status", "elaboration", "interval"] ++
      housekeepingColumns
    primaryKey := ["query_id"]
    uniques := []
    jsonChecked := []
    fkeys := [⟨["node_key"], "surveilr_osquery_ms_node", ["node_key"]⟩] }

/-- `surveilr_osquery_ms_distributed_result` table. -/
def surveilrOsqueryMsDistributedResult : Table :=
  { name := "surveilr_osquery_ms_distributed_result"
    columns := ["surveilr_osquery_ms_distributed_result_id", "query_id",
      "node_key", "results", "status_code"] ++ housekeepingColumns
    primaryKey := ["surveilr_osquery_ms_distributed_result_id"]
    uniques := []
    jsonChecked := []
    fkeys := [⟨["query_id"], "surveilr_osquery_ms_distributed_query",
        ["query_id"]⟩,
      ⟨["node_key"], "surveilr_osquery_ms_node", ["node_key"]⟩] }

/-- `surveilr_osquery_ms_carve` table. -/
def surveilrOsqueryMsCarve : Table :=
  { name := "surveilr_osquery_ms_carve"
    columns := ["surveilr_osquery_ms_carve_id", "node_key", "session_id",
      "carve_guid", "carve_size", "block_count", "block_size",
      "received_blocks", "carve_path", "status", "start_time",
      "completion_time", "elaboration"] ++ housekeepingColumns
    primaryKey := ["surveilr_osquery_ms_carve_id"]
    uniques := [["session_id"], ["carve_guid"]]
    jsonChecked := []
    fkeys := [⟨["node_key"], "surveilr_osquery_ms_node", ["node_key"]⟩] }

/-- `surveilr_osquery_ms_carved_extracted_file` table. -/
def surveilrOsqueryMsCarvedExtractedFile : Table :=
  { name := "surveilr_osquery_ms_carved_extracted_file"
    columns := ["surveilr_osquery_ms_carved_extracted_file_id", "carve_guid",
      "path", "size_bytes", "content_digest", "nature", "extracted_at"] ++
      housekeepingColumns
    primaryKey := ["surveilr_osquery_ms_carved_extracted_file_id"]
    uniques := []
    jsonChecked := []
    fkeys := [⟨["carve_guid"], "surveilr_osquery_ms_carve", ["carve_guid"]⟩] }

/-- `surveilr_snmp_device` table. -/
def surveilrSnmpDevice : Table :=
  { name := "surveilr_snmp_device"
    columns := ["surveilr_snmp_device_id", "device_key", "snmp_host",
      "snmp_port", "snmp_community", "snmp_version", "snmp_timeout",
      "snmp_retries", "device_type", "device_description", "last_seen",
      "status", "device_id", "behavior_id", "elaboration"] ++
      housekeepingColumns
    primaryKey := ["surveilr_snmp_device_id"]
    uniques := [["snmp_host", "snmp_port"], ["device_key"]]
    jsonChecked := ["elaboration"]
    fkeys := [⟨["device_id"], "device", ["device_id"]⟩,
      ⟨["behavior_id"], "behavior", ["behavior_id"]⟩] }

/-- `surveilr_snmp_collection` table. -/
def surveilrSnmpCollection : Table :=
  { name := "surveilr_snmp_collection"
    columns := ["surveilr_snmp_collection_id", "device_key", "oid", "oid_value",
      "oid_type", "collected_at", "elaboration"] ++ housekeepingColumns
    primaryKey := ["surveilr_snmp_collection_id"]
    uniques := []
    jsonChecked := ["elaboration"]
    fkeys := [⟨["device_key"], "surveilr_snmp_device", ["device_key"]⟩] }

/-- `surveilr_function_doc` table (no housekeeping). -/
def surveilrFunctionDoc : Table :=
  { name := "surveilr_function_doc"
    columns := ["name", "description", "parameters", "return_type", "version"]
    primaryKey := ["name"]
    uniques := []
    jsonChecked := ["parameters"]
    fkeys := [] }

/-- All tables declared in `src/drizzle/models.ts`, in declaration order. -/
def schemaTables : List Table :=
  [sqleanDefine, assuranceSchema, device, codeNotebookKernel, codeNotebookCell,
   codeNotebookState, sqlpageFiles, surveilrTableSize, sqlpageAideNavigation,
   partyType, party, partyRelationType, partyRelation, genderType, sexType,
   personType, person, organization, organizationRoleType, organizationRole,
   devicePartyRelationship, behavior, urIngestResourcePathMatchRule,
   urIngestResourcePathRewriteRule, urIngestSession, urIngestSessionFsPath,
   uniformResource, uniformResourceTransform, urIngestSessionFsPathEntry,
   urIngestSessionTask, urIngestSessionImapAccount,
   urIngestSessionImapAcctFolder, urIngestSessionImapAcctFolderMessage,
   urIngestSessionPlmAccount, urIngestSessionPlmAcctProject,
   urIngestSessionPlmUser, urIngestSessionPlmIssueType,
   urIngestSessionPlmAcctProjectIssue, urIngestSessionPlmAcctLabel,
   urIngestSessionPlmMilestone, urIngestSessionPlmAcctRelationship,
   urIngestSessionPlmComment, urIngestSessionPlmReaction,
   urIngestSessionPlmIssueReaction, urIngestSessionAttachment,
   urIngestSessionUdiPgpSql, orchestrationNature, orchestrationSession,
   orchestrationSessionEntry, orchestrationSessionState,
   orchestrationSessionExec, orchestrationSessionIssue,
   orchestrationSessionIssueRelation, orchestrationSessionLog,
   uniformResourceGraph, uniformResourceEdge, surveilrOsqueryMsNode,
   urIngestSessionOsqueryMsLog, osqueryPolicy,
   surveilrOsqueryMsDistributedQuery, surveilrOsqueryMsDistributedResult,
   surveilrOsqueryMsCarve, surveilrOsqueryMsCarvedExtractedFile,
   surveilrSnmpDevice, surveilrSnmpCollection, surveilrFunctionDoc]

/-- A table carries the full housekeeping envelope when every housekeeping
column occurs among its columns. -/
def hasHousekeeping (t : Table) : Bool :=
  housekeepingColumns.all (fun c => t.columns.contains c)

/-! ## Row-level embedding: `uniform_resource` and the Resource Store -/

/-- One row of the `uniform_resource` table, one field per source column.
`content` is a `BLOB` (modelled as a byte list); nullable columns are
`Option`; `size_bytes` is an SQLite `INTEGER`. -/
structure UniformResourceRow where
  uniformResourceId : String
  deviceId : String
  ingestSessionId : String
  ingestFsPathId : Option String
  ingestSessionImapAcctFolderMessage : Option String
  ingestIssueAcctProjectId : Option String
  uri : String
  contentDigest : String
  content : Option (List Nat)
  nature : Option String
  sizeBytes : Option Int
  lastModifiedAt : Option String
  contentFmBodyAttrs : Option String
  frontmatter : Option String
  elaboration : Option String
  createdAt : Option String
  createdBy : Option String
  updatedAt : Option String
  updatedBy : Option String
  deletedAt : Option String
  deletedBy : Option String
  activityLog : Option String
  deriving DecidableEq, Repr

/-- The lookup predicate for the `uniform_resource` unique key
`(device_id, content_digest, uri, size_bytes)` at a concrete (non-null)
size. -/
def urKeyMatches (dev dgst u : String) (sz : Int) (r : UniformResourceRow) : Bool :=
  decide (r.deviceId = dev ∧ r.contentDigest = dgst ∧ r.uri = u ∧
    r.sizeBytes = some sz)

/-- Two `uniform_resource` rows collide on the declared unique key
`(device_id, content_digest, uri, size_bytes)`.  Following SQLite `UNIQUE`
semantics, a `NULL` `size_bytes` never collides. -/
def urConflict (a b : UniformResourceRow) : Prop :=
  a.deviceId = b.deviceId ∧ a.contentDigest = b.contentDigest ∧
  a.uri = b.uri ∧ a.sizeBytes = b.sizeBytes ∧ a.sizeBytes ≠ none

instance (a b : UniformResourceRow) : Decidable (urConflict a b) := by
  unfold urConflict; infer_instance

/-- The integrity state of the `uniform_resource` table: distinct primary
keys and no two rows colliding on the unique dedup key. -/
def urStoreOk (store : List UniformResourceRow) : Prop :=
  store.Pairwise (fun a b => a.uniformResourceId ≠ b.uniformResourceId) ∧
  store.Pairwise (fun a b => ¬ urConflict a b)

/-- Result of one admission: the resulting table, the resolved
`resourceId`, and the `isNewRecord` flag. -/
structure AdmitOutcome where
  store : List UniformResourceRow
  resourceId : String
  isNewRecord : Bool
  deriving DecidableEq, Repr

/-- Modelled from the spec: the Resource Store admission routine (§4.1,
named `admitResource` here) is
not in `src/` — the repository holds only the `uniform_resource` table it
writes.  Following the spec's words: compute the content digest, look up
the unique key `(deviceId, digest, uri, sizeBytes)` declared on
`uniform_resource`; if present, return the existing identifier with
`isNewRecord = false` and perform no write; if absent, insert a new record
owned by `sessionId`.  `digest` is the content-digest hash (external),
`newId` the fresh primary key, `now` the insertion timestamp (the
housekeeping `created_at` default; `created_by` defaults to "UNKNOWN"). -/
def admitFresh (digest : List Nat → String) (dev u : String)
    (content : List Nat) (sizeBytes : Int) (nature : Option String)
    (sessionId newId now : String) : UniformResourceRow :=
  { uniformResourceId := newId, deviceId := dev,
    ingestSessionId := sessionId, ingestFsPathId := none,
    ingestSessionImapAcctFolderMessage := none,
    ingestIssueAcctProjectId := none, uri := u, contentDigest := digest content,
    content := some content, nature := nature,
    sizeBytes := some sizeBytes, lastModifiedAt := none,
    contentFmBodyAttrs := none, frontmatter := none, elaboration := none,
    createdAt := some now, createdBy := some "UNKNOWN",
    updatedAt := none, updatedBy := none, deletedAt := none,
    deletedBy := none, activityLog := none }

def admitResource (digest : List Nat → String) (store : List UniformResourceRow)
    (dev u : String) (content : List Nat) (sizeBytes : Int)
    (nature : Option String) (sessionId newId now : String) : AdmitOutcome :=
  match store.find? (urKeyMatches dev (digest content) u sizeBytes) with
  | some r => ⟨store, r.uniformResourceId, false⟩
  | none => ⟨store ++
      [admitFresh digest dev u content sizeBytes nature sessionId newId now],
      newId, true⟩

theorem admitResource_found {digest : List Nat → String}
    {store : List UniformResourceRow} {dev u : String} {content : List Nat}
    {sizeBytes : Int} {nature : Option String} {sessionId newId now : String}
    {r : UniformResourceRow}
    (h : store.find? (urKeyMatches dev (digest content) u sizeBytes) = some r) :
    admitResource digest store dev u content sizeBytes nature sessionId newId now
      = ⟨store, r.uniformResourceId, false⟩ := by
  simp [admitResource, h]

theorem admitResource_new {digest : List Nat → String}
    {store : List UniformResourceRow} {dev u : String} {content : List Nat}
    {sizeBytes : Int} {nature : Option String} {sessionId newId now : String}
    (h : store.find? (urKeyMatches dev (digest content) u sizeBytes) = none) :
    admitResource digest store dev u content sizeBytes nature sessionId newId now
      = ⟨store ++
          [admitFresh digest dev u content sizeBytes nature sessionId newId now],
         newId, true⟩ := by
  simp [admitResource, h]

theorem urKeyMatches_admitFresh (digest : List Nat → String) (dev u : String)
    (content : List Nat) (sizeBytes : Int) (nature : Option String)
    (sessionId newId now : String) :
    urKeyMatches dev (digest content) u sizeBytes
      (admitFresh digest dev u content sizeBytes nature sessionId newId now)
      = true := by
  simp [urKeyMatches, admitFresh]

/-- Claim C1: uniform-resource deduplication is device-scoped and keyed on
`(deviceId, contentDigest, uri, sizeBytes)`.  (i) Admitting the same bytes
at the same URI and size a second time (whatever the second call's nature,
session, candidate id or timestamp) resolves to the record produced by the
first call, reports `isNewRecord = false`, and adds no new row.
(ii) Admission preserves the store integrity (distinct primary keys, at
most one row per dedup key).  (iii) Identical content admitted under two
distinct `deviceId`s yields two distinct resource records. -/
theorem C1_uniform_resource_device_scoped_dedup
    (digest : List Nat → String) (store : List UniformResourceRow)
    (dev u : String) (c : List Nat) (sz : Int) (nat1 nat2 : Option String)
    (sess1 id1 now1 sess2 id2 now2 : String) :
    (admitResource digest (admitResource digest store dev u c sz nat1 sess1 id1 now1).store
        dev u c sz nat2 sess2 id2 now2
      = ⟨(admitResource digest store dev u c sz nat1 sess1 id1 now1).store,
         (admitResource digest store dev u c sz nat1 sess1 id1 now1).resourceId,
         false⟩)
    ∧ (urStoreOk store → (∀ r ∈ store, r.uniformResourceId ≠ id1) →
        urStoreOk (admitResource digest store dev u c sz nat1 sess1 id1 now1).store)
    ∧ (∀ d1 d2 : String, d1 ≠ d2 →
        store.find? (urKeyMatches d1 (digest c) u sz) = none →
        store.find? (urKeyMatches d2 (digest c) u sz) = none →
        (admitResource digest store d1 u c sz nat1 sess1 id1 now1).isNewRecord = true
        ∧ (admitResource digest
            (admitResource digest store d1 u c sz nat1 sess1 id1 now1).store
            d2 u c sz nat2 sess2 id2 now2).isNewRecord = true
        ∧ (admitResource digest store d1 u c sz nat1 sess1 id1 now1).resourceId = id1
        ∧ (admitResource digest
            (admitResource digest store d1 u c sz nat1 sess1 id1 now1).store
            d2 u c sz nat2 sess2 id2 now2).resourceId = id2
        ∧ ∃ ra ∈ (admitResource digest
              (admitResource digest store d1 u c sz nat1 sess1 id1 now1).store
              d2 u c sz nat2 sess2 id2 now2).store,
          ∃ rb ∈ (admitResource digest
              (admitResource digest store d1 u c sz nat1 sess1 id1 now1).store
              d2 u c sz nat2 sess2 id2 now2).store,
            ra ≠ rb ∧ ra.uniformResourceId = id1 ∧ ra.deviceId = d1 ∧
            rb.uniformResourceId = id2 ∧ rb.deviceId = d2) := by
  refine ⟨?_, ?_, ?_⟩
  · cases h : store.find? (urKeyMatches dev (digest c) u sz) with
    | some r =>
      rw [admitResource_found h]
      dsimp only
      rw [admitResource_found h]
    | none =>
      rw [@admitResource_new digest store dev u c sz nat1 sess1 id1 now1 h]
      dsimp only
      have hagain : ((store ++
          [admitFresh digest dev u c sz nat1 sess1 id1 now1]).find?
            (urKeyMatches dev (digest c) u sz))
          = some (admitFresh digest dev u c sz nat1 sess1 id1 now1) := by
        rw [List.find?_append, h]
        simp [urKeyMatches_admitFresh]
      rw [admitResource_found hagain]
      simp [admitFresh]
  · rintro ⟨hpk, huniq⟩ hfresh
    cases h : store.find? (urKeyMatches dev (digest c) u sz) with
    | some r =>
      rw [admitResource_found h]
      exact ⟨hpk, huniq⟩
    | none =>
      have hnone := List.find?_eq_none.mp h
      rw [@admitResource_new digest store dev u c sz nat1 sess1 id1 now1 h]
      dsimp only
      constructor
      · rw [List.pairwise_append]
        refine ⟨hpk, by simp, ?_⟩
        intro a ha b hb
        simp only [List.mem_singleton] at hb
        subst hb
        simpa [admitFresh] using hfresh a ha
      · rw [List.pairwise_append]
        refine ⟨huniq, by simp, ?_⟩
        intro a ha b hb hconf
        simp only [List.mem_singleton] at hb
        subst hb
        simp only [urConflict, admitFresh] at hconf
        rcases hconf with ⟨e1, e2, e3, e4, -⟩
        exact hnone a ha (by simp [urKeyMatches, e1, e2, e3, e4])
  · intro d1 d2 hd h1 h2
    have hA := @admitResource_new digest store d1 u c sz nat1 sess1 id1 now1 h1
    have hB1 : ((store ++
        [admitFresh digest d1 u c sz nat1 sess1 id1 now1]).find?
          (urKeyMatches d2 (digest c) u sz)) = none := by
      rw [List.find?_append, h2]
      simp [List.find?, urKeyMatches, admitFresh, hd]
    have hB := @admitResource_new digest
      (store ++ [admitFresh digest d1 u c sz nat1 sess1 id1 now1])
      d2 u c sz nat2 sess2 id2 now2 hB1
    rw [hA]
    dsimp only
    rw [hB]
    dsimp only
    refine ⟨rfl, rfl, rfl, rfl,
      admitFresh digest d1 u c sz nat1 sess1 id1 now1, by simp,
      admitFresh digest d2 u c sz nat2 sess2 id2 now2, by simp,
      ?_, by simp [admitFresh], by simp [admitFresh],
      by simp [admitFresh], by simp [admitFresh]⟩
    intro hcon
    have hdd := congrArg UniformResourceRow.deviceId hcon
    simp only [admitFresh] at hdd
    exact hd hdd

/-- Concrete witness for C1: on the empty store, admitting `[1, 2]` at
`/a` for device `D1` keeps the store integrity, and a subsequent admission
of the same content for device `D2` inserts a fresh record. -/
theorem C1_uniform_resource_device_scoped_dedup_witness :
    urStoreOk ((admitResource (fun _ => "h") [] "D1" "/a" [1, 2] 2 none
      "S1" "R1" "t1").store) ∧
    (admitResource (fun _ => "h")
      ((admitResource (fun _ => "h") [] "D1" "/a" [1, 2] 2 none "S1" "R1" "t1").store)
      "D2" "/a" [1, 2] 2 none "S2" "R2" "t2").isNewRecord = true := by
  have h := C1_uniform_resource_device_scoped_dedup (fun _ => "h") []
    "D1" "/a" [1, 2] 2 none none "S1" "R1" "t1" "S2" "R2" "t2"
  refine ⟨?_, ?_⟩
  · exact h.2.1 ⟨List.Pairwise.nil, List.Pairwise.nil⟩ (by simp)
  · exact (h.2.2 "D1" "D2" (by decide) rfl rfl).2.1

/-! ## Row-level embedding: `uniform_resource_transform` -/

/-- One row of the `uniform_resource_transform` table (its `content` column
is `TEXT`, unlike the `BLOB` of `uniform_resource`). -/
structure UniformResourceTransformRow where
  uniformResourceTransformId : String
  uniformResourceId : String
  uri : String
  contentDigest : String
  content : Option String
  nature : Option String
  sizeBytes : Option Int
  elaboration : Option String
  createdAt : Option String
  createdBy : Option String
  updatedAt : Option String
  updatedBy : Option String
  deletedAt : Option String
  deletedBy : Option String
  activityLog : Option String
  deriving DecidableEq, Repr

/-- Lookup predicate for the `uniform_resource_transform` unique key
`(uniform_resource_id, content_digest, nature, size_bytes)` at concrete
non-null nature and size. -/
def urtKeyMatches (rid dgst nat : String) (sz : Int)
    (r : UniformResourceTransformRow) : Bool :=
  decide (r.uniformResourceId = rid ∧ r.contentDigest = dgst ∧
    r.nature = some nat ∧ r.sizeBytes = some sz)

/-- Collision on the transform unique key, with SQLite `NULL` semantics for
the nullable `nature` and `size_bytes` components. -/
def urtConflict (a b : UniformResourceTransformRow) : Prop :=
  a.uniformResourceId = b.uniformResourceId ∧
  a.contentDigest = b.contentDigest ∧
  a.nature = b.nature ∧ a.nature ≠ none ∧
  a.sizeBytes = b.sizeBytes ∧ a.sizeBytes ≠ none

instance (a b : UniformResourceTransformRow) : Decidable (urtConflict a b) := by
  unfold urtConflict; infer_instance

/-- Integrity state of the `uniform_resource_transform` table. -/
def urtStoreOk (store : List UniformResourceTransformRow) : Prop :=
  store.Pairwise
    (fun a b => a.uniformResourceTransformId ≠ b.uniformResourceTransformId) ∧
  store.Pairwise (fun a b => ¬ urtConflict a b)

/-- Result of one transform admission. -/
structure AdmitTransformOutcome where
  store : List UniformResourceTransformRow
  transformId : String
  isNewRecord : Bool
  deriving DecidableEq, Repr

def admitTransformFresh (digest : String → String) (rid u content nat : String)
    (sizeBytes : Int) (newId now : String) : UniformResourceTransformRow :=
  { uniformResourceTransformId := newId, uniformResourceId := rid, uri := u,
    contentDigest := digest content, content := some content,
    nature := some nat, sizeBytes := some sizeBytes, elaboration := none,
    createdAt := some now, createdBy := some "UNKNOWN", updatedAt := none,
    updatedBy := none, deletedAt := none, deletedBy := none,
    activityLog := none }

/-- Modelled from the spec: `admitTransform` (§4.1) is not in `src/` — the
repository holds only the `uniform_resource_transform` table it writes.
It follows the same dedup discipline as `admitResource`, keyed by
`(resourceId, digest, nature, sizeBytes)` as declared unique on the table.
The table's `NOT NULL` `uri` column is filled from the `u` argument. -/
def admitTransform (digest : String → String)
    (store : List UniformResourceTransformRow) (rid u content nat : String)
    (sizeBytes : Int) (newId now : String) : AdmitTransformOutcome :=
  match store.find? (urtKeyMatches rid (digest content) nat sizeBytes) with
  | some r => ⟨store, r.uniformResourceTransformId, false⟩
  | none => ⟨store ++
      [admitTransformFresh digest rid u content nat sizeBytes newId now],
      newId, true⟩

theorem admitTransform_found {digest : String → String}
    {store : List UniformResourceTransformRow} {rid u content nat : String}
    {sizeBytes : Int} {newId now : String} {r : UniformResourceTransformRow}
    (h : store.find? (urtKeyMatches rid (digest content) nat sizeBytes)
      = some r) :
    admitTransform digest store rid u content nat sizeBytes newId now
      = ⟨store, r.uniformResourceTransformId, false⟩ := by
  simp [admitTransform, h]

theorem admitTransform_new {digest : String → String}
    {store : List UniformResourceTransformRow} {rid u content nat : String}
    {sizeBytes : Int} {newId now : String}
    (h : store.find? (urtKeyMatches rid (digest content) nat sizeBytes)
      = none) :
    admitTransform digest store rid u content nat sizeBytes newId now
      = ⟨store ++
          [admitTransformFresh digest rid u content nat sizeBytes newId now],
         newId, true⟩ := by
  simp [admitTransform, h]

theorem urtKeyMatches_admitTransformFresh (digest : String → String)
    (rid u content nat : String) (sizeBytes : Int) (newId now : String) :
    urtKeyMatches rid (digest content) nat sizeBytes
      (admitTransformFresh digest rid u content nat sizeBytes newId now)
      = true := by
  simp [urtKeyMatches, admitTransformFresh]

/-- Claim C3: transform deduplication is keyed on
`(uniformResourceId, contentDigest, nature, sizeBytes)`.  (i) Re-deriving
a transform identical in all four key components collapses to the existing
row and inserts no duplicate.  (ii) Admission preserves the table
integrity (distinct primary keys, at most one row per key).  (iii) Two
transforms of the same resource differing only in `nature` both persist as
distinct rows.  (iv) Two transforms of the same resource differing only in
`sizeBytes` both persist as distinct rows — so `size_bytes`, like
`nature`, is a discriminating component of the dedup key. -/
theorem C3_uniform_resource_transform_dedup (digest : String → String)
    (store : List UniformResourceTransformRow) (rid u content : String)
    (sz : Int) (nat1 nat2 : String) (id1 now1 id2 now2 u2 : String) :
    (admitTransform digest
        (admitTransform digest store rid u content nat1 sz id1 now1).store
        rid u2 content nat1 sz id2 now2
      = ⟨(admitTransform digest store rid u content nat1 sz id1 now1).store,
         (admitTransform digest store rid u content nat1 sz id1 now1).transformId,
         false⟩)
    ∧ (urtStoreOk store →
        (∀ r ∈ store, r.uniformResourceTransformId ≠ id1) →
        urtStoreOk
          (admitTransform digest store rid u content nat1 sz id1 now1).store)
    ∧ (nat1 ≠ nat2 →
        store.find? (urtKeyMatches rid (digest content) nat1 sz) = none →
        store.find? (urtKeyMatches rid (digest content) nat2 sz) = none →
        (admitTransform digest store rid u content nat1 sz id1 now1).isNewRecord
          = true
        ∧ (admitTransform digest
            (admitTransform digest store rid u content nat1 sz id1 now1).store
            rid u2 content nat2 sz id2 now2).isNewRecord = true
        ∧ ∃ ra ∈ (admitTransform digest
              (admitTransform digest store rid u content nat1 sz id1 now1).store
              rid u2 content nat2 sz id2 now2).store,
          ∃ rb ∈ (admitTransform digest
              (admitTransform digest store rid u content nat1 sz id1 now1).store
              rid u2 content nat2 sz id2 now2).store,
            ra ≠ rb ∧ ra.uniformResourceId = rid ∧ rb.uniformResourceId = rid ∧
            ra.nature = some nat1 ∧ rb.nature = some nat2)
    ∧ (∀ sz1 sz2 : Int, sz1 ≠ sz2 →
        store.find? (urtKeyMatches rid (digest content) nat1 sz1) = none →
        store.find? (urtKeyMatches rid (digest content) nat1 sz2) = none →
        (admitTransform digest store rid u content nat1 sz1 id1 now1).isNewRecord
          = true
        ∧ (admitTransform digest
            (admitTransform digest store rid u content nat1 sz1 id1 now1).store
            rid u2 content nat1 sz2 id2 now2).isNewRecord = true
        ∧ ∃ ra ∈ (admitTransform digest
              (admitTransform digest store rid u content nat1 sz1 id1 now1).store
              rid u2 content nat1 sz2 id2 now2).store,
          ∃ rb ∈ (admitTransform digest
              (admitTransform digest store rid u content nat1 sz1 id1 now1).store
              rid u2 content nat1 sz2 id2 now2).store,
            ra ≠ rb ∧ ra.uniformResourceId = rid ∧ rb.uniformResourceId = rid ∧
            ra.sizeBytes = some sz1 ∧ rb.sizeBytes = some sz2) := by
  refine ⟨?_, ?_, ?_, ?_⟩
  · cases h : store.find? (urtKeyMatches rid (digest content) nat1 sz) with
    | some r =>
      rw [admitTransform_found h]
      dsimp only
      rw [admitTransform_found h]
    | none =>
      rw [@admitTransform_new digest store rid u content nat1 sz id1 now1 h]
      dsimp only
      have hagain : ((store ++
          [admitTransformFresh digest rid u content nat1 sz id1 now1]).find?
            (urtKeyMatches rid (digest content) nat1 sz))
          = some (admitTransformFresh digest rid u content nat1 sz id1 now1) := by
        rw [List.find?_append, h]
        simp [urtKeyMatches_admitTransformFresh]
      rw [admitTransform_found hagain]
      simp [admitTransformFresh]
  · rintro ⟨hpk, huniq⟩ hfresh
    cases h : store.find? (urtKeyMatches rid (digest content) nat1 sz) with
    | some r =>
      rw [admitTransform_found h]
      exact ⟨hpk, huniq⟩
    | none =>
      have hnone := List.find?_eq_none.mp h
      rw [@admitTransform_new digest store rid u content nat1 sz id1 now1 h]
      dsimp only
      constructor
      · rw [List.pairwise_append]
        refine ⟨hpk, by simp, ?_⟩
        intro a ha b hb
        simp only [List.mem_singleton] at hb
        subst hb
        simpa [admitTransformFresh] using hfresh a ha
      · rw [List.pairwise_append]
        refine ⟨huniq, by simp, ?_⟩
        intro a ha b hb hconf
        simp only [List.mem_singleton] at hb
        subst hb
        simp only [urtConflict, admitTransformFresh] at hconf
        rcases hconf with ⟨e1, e2, e3, -, e4, -⟩
        exact hnone a ha (by simp [urtKeyMatches, e1, e2, e3, e4])
  · intro hd h1 h2
    have hA := @admitTransform_new digest store rid u content nat1 sz id1 now1 h1
    have hB1 : ((store ++
        [admitTransformFresh digest rid u content nat1 sz id1 now1]).find?
          (urtKeyMatches rid (digest content) nat2 sz)) = none := by
      rw [List.find?_append, h2]
      simp [List.find?, urtKeyMatches, admitTransformFresh, hd]
    have hB := @admitTransform_new digest
      (store ++ [admitTransformFresh digest rid u content nat1 sz id1 now1])
      rid u2 content nat2 sz id2 now2 hB1
    rw [hA]
    dsimp only
    rw [hB]
    dsimp only
    refine ⟨rfl, rfl,
      admitTransformFresh digest rid u content nat1 sz id1 now1, by simp,
      admitTransformFresh digest rid u2 content nat2 sz id2 now2, by simp,
      ?_, by simp [admitTransformFresh], by simp [admitTransformFresh],
      by simp [admitTransformFresh], by simp [admitTransformFresh]⟩
    intro hcon
    have hn := congrArg UniformResourceTransformRow.nature hcon
    simp only [admitTransformFresh, Option.some.injEq] at hn
    exact hd hn
  · intro sz1 sz2 hd h1 h2
    have hA := @admitTransform_new digest store rid u content nat1 sz1 id1
      now1 h1
    have hB1 : ((store ++
        [admitTransformFresh digest rid u content nat1 sz1 id1 now1]).find?
          (urtKeyMatches rid (digest content) nat1 sz2)) = none := by
      rw [List.find?_append, h2]
      simp [List.find?, urtKeyMatches, admitTransformFresh, hd]
    have hB := @admitTransform_new digest
      (store ++ [admitTransformFresh digest rid u content nat1 sz1 id1 now1])
      rid u2 content nat1 sz2 id2 now2 hB1
    rw [hA]
    dsimp only
    rw [hB]
    dsimp only
    refine ⟨rfl, rfl,
      admitTransformFresh digest rid u content nat1 sz1 id1 now1, by simp,
      admitTransformFresh digest rid u2 content nat1 sz2 id2 now2, by simp,
      ?_, by simp [admitTransformFresh], by simp [admitTransformFresh],
      by simp [admitTransformFresh], by simp [admitTransformFresh]⟩
    intro hcon
    have hn := congrArg UniformResourceTransformRow.sizeBytes hcon
    simp only [admitTransformFresh, Option.some.injEq] at hn
    exact hd hn

/-- Concrete witness for C3: on the empty transform table, deriving a
`text/plain` transform of size 4 keeps integrity; a second derivation
identical except for nature `text/html` inserts a distinct row, and a
third derivation identical to the first except for size 5 also inserts a
distinct row. -/
theorem C3_uniform_resource_transform_dedup_witness :
    urtStoreOk ((admitTransform (fun _ => "h") [] "R1" "/a" "body"
      "text/plain" 4 "T1" "t1").store) ∧
    (admitTransform (fun _ => "h")
      ((admitTransform (fun _ => "h") [] "R1" "/a" "body" "text/plain" 4
        "T1" "t1").store)
      "R1" "/a" "body" "text/html" 4 "T2" "t2").isNewRecord = true ∧
    (admitTransform (fun _ => "h")
      ((admitTransform (fun _ => "h") [] "R1" "/a" "body" "text/plain" 4
        "T1" "t1").store)
      "R1" "/a" "body" "text/plain" 5 "T2" "t2").isNewRecord = true := by
  have h := C3_uniform_resource_transform_dedup (fun _ => "h") [] "R1" "/a"
    "body" 4 "text/plain" "text/html" "T1" "t1" "T2" "t2" "/a"
  refine ⟨?_, ?_, ?_⟩
  · exact h.2.1 ⟨List.Pairwise.nil, List.Pairwise.nil⟩ (by simp)
  · exact (h.2.2.1 (by decide) rfl rfl).2.1
  · exact (h.2.2.2 4 5 (by decide) rfl rfl).2.1

/-! ## Row-level embedding: `uniform_resource_graph` / `uniform_resource_edge` -/

/-- One row of the `uniform_resource_graph` table. -/
structure UniformResourceGraphRow where
  name : String
  elaboration : Option String
  deriving DecidableEq, Repr

/-- One row of the `uniform_resource_edge` table (all four key columns are
`NOT NULL`; the table declares no primary key). -/
structure UniformResourceEdgeRow where
  graphName : String
  nature : String
  nodeId : String
  uniformResourceId : String
  elaboration : Option String
  deriving DecidableEq, Repr

/-- The `uniform_resource_edge` unique key
`(graph_name, nature, node_id, uniform_resource_id)`. -/
def edgeKey (e : UniformResourceEdgeRow) : String × String × String × String :=
  (e.graphName, e.nature, e.nodeId, e.uniformResourceId)

/-- Edge-table uniqueness: no two rows share the declared unique key. -/
def edgesUniqueOk (edges : List UniformResourceEdgeRow) : Prop :=
  edges.Pairwise (fun a b => edgeKey a ≠ edgeKey b)

/-- Edge-table referential integrity for `graph_name`: every edge
references a registered graph (`graph_name REFERENCES
uniform_resource_graph(name)`). -/
def edgesGraphFkOk (graphs : List UniformResourceGraphRow)
    (edges : List UniformResourceEdgeRow) : Prop :=
  ∀ e ∈ edges, ∃ g ∈ graphs, g.name = e.graphName

/-- The error raised when linking into an unregistered graph (spec §4.2). -/
inductive LinkError where
  | UnknownGraphError
  deriving DecidableEq, Repr

/-- Modelled from the spec: the Lineage Graph `link` operation (§4.2) is
not in `src/` — the repository holds only the `uniform_resource_graph` and
`uniform_resource_edge` tables it writes.  Following the spec's words:
linking into an unregistered graph fails with `UnknownGraphError`
(the `graph_name` foreign key); otherwise the row insertion resolves
against the declared unique key `(graph_name, nature, node_id,
uniform_resource_id)` — an already-present identical edge makes the call a
no-op rather than a duplicate insert. -/
def link (graphs : List UniformResourceGraphRow)
    (edges : List UniformResourceEdgeRow)
    (graphName nature nodeId resourceId : String) :
    Except LinkError (List UniformResourceEdgeRow) :=
  if graphs.any (fun g => decide (g.name = graphName)) then
    let e : UniformResourceEdgeRow :=
      ⟨graphName, nature, nodeId, resourceId, none⟩
    if edges.any (fun x => decide (edgeKey x = edgeKey e)) then .ok edges
    else .ok (edges ++ [e])
  else .error .UnknownGraphError

/-- Claim C4: lineage-graph linking is idempotent — whenever a `link` call
succeeds with resulting edge set `es`, the same call on `es` succeeds and
returns `es` unchanged (the duplicate resolves against the unique key);
moreover a successful `link` preserves edge-key uniqueness. -/
theorem C4_link_idempotent (graphs : List UniformResourceGraphRow)
    (edges : List UniformResourceEdgeRow) (gn nat node rid : String) :
    (∀ es, link graphs edges gn nat node rid = .ok es →
      link graphs es gn nat node rid = .ok es)
    ∧ (∀ es, edgesUniqueOk edges →
        link graphs edges gn nat node rid = .ok es → edgesUniqueOk es) := by
  constructor
  · intro es hok
    by_cases hg : graphs.any (fun g => decide (g.name = gn)) = true
    · by_cases he : edges.any (fun x => decide (edgeKey x
          = edgeKey ⟨gn, nat, node, rid, none⟩)) = true
      · rw [link, if_pos hg, if_pos he] at hok
        cases hok
        rw [link, if_pos hg, if_pos he]
      · rw [link, if_pos hg, if_neg he] at hok
        cases hok
        have hnow : (((edges ++ [⟨gn, nat, node, rid, none⟩])
            : List UniformResourceEdgeRow).any
            (fun x => decide (edgeKey x = edgeKey ⟨gn, nat, node, rid, none⟩)))
            = true := by
          apply List.any_eq_true.mpr
          exact ⟨⟨gn, nat, node, rid, none⟩, by simp, by simp⟩
        rw [link, if_pos hg, if_pos hnow]
    · rw [link, if_neg hg] at hok
      cases hok
  · intro es huniq hok
    by_cases hg : graphs.any (fun g => decide (g.name = gn)) = true
    · by_cases he : edges.any (fun x => decide (edgeKey x
          = edgeKey ⟨gn, nat, node, rid, none⟩)) = true
      · rw [link, if_pos hg, if_pos he] at hok
        cases hok
        exact huniq
      · rw [link, if_pos hg, if_neg he] at hok
        cases hok
        rw [edgesUniqueOk, List.pairwise_append]
        refine ⟨huniq, by simp, ?_⟩
        intro a ha b hb
        simp only [List.mem_singleton] at hb
        subst hb
        intro hkey
        exact he (List.any_eq_true.mpr ⟨a, ha, by simp [hkey]⟩)
    · rw [link, if_neg hg] at hok
      cases hok

/-- Concrete witness for C4: with graph `g` registered, linking the edge
`(g, n, N1, R1)` a second time returns the edge set unchanged, and the
resulting one-edge set satisfies key uniqueness. -/
theorem C4_link_idempotent_witness :
    link [⟨"g", none⟩] [⟨"g", "n", "N1", "R1", none⟩] "g" "n" "N1" "R1"
      = .ok [⟨"g", "n", "N1", "R1", none⟩] ∧
    edgesUniqueOk [⟨"g", "n", "N1", "R1", none⟩] := by
  have h := C4_link_idempotent [⟨"g", none⟩] [] "g" "n" "N1" "R1"
  exact ⟨h.1 [⟨"g", "n", "N1", "R1", none⟩] (by rfl),
    h.2 [⟨"g", "n", "N1", "R1", none⟩] List.Pairwise.nil (by rfl)⟩

/-- Claim C5: linking into an unregistered graph fails.  (i) `link` fails
with `UnknownGraphError` exactly when no graph row named `graphName`
exists.  (ii) A successful `link` preserves the edge-table invariant that
every edge row references a registered graph name. -/
theorem C5_link_requires_registered_graph
    (graphs : List UniformResourceGraphRow)
    (edges : List UniformResourceEdgeRow) (gn nat node rid : String) :
    (link graphs edges gn nat node rid = .error .UnknownGraphError
      ↔ ¬ ∃ g ∈ graphs, g.name = gn)
    ∧ (edgesGraphFkOk graphs edges → ∀ es,
        link graphs edges gn nat node rid = .ok es →
        edgesGraphFkOk graphs es) := by
  constructor
  · by_cases hg : graphs.any (fun g => decide (g.name = gn)) = true
    · have hex : ∃ g ∈ graphs, g.name = gn := by
        have := List.any_eq_true.mp hg
        simpa using this
      constructor
      · intro herr
        rw [link, if_pos hg] at herr
        dsimp only at herr
        split at herr
        · exact Except.noConfusion herr
        · exact Except.noConfusion herr
      · intro hne
        exact (hne hex).elim
    · constructor
      · intro _ hex
        rcases hex with ⟨g, hgm, hge⟩
        exact hg (List.any_eq_true.mpr ⟨g, hgm, by simp [hge]⟩)
      · intro _
        rw [link, if_neg hg]
  · intro hfk es hok
    by_cases hg : graphs.any (fun g => decide (g.name = gn)) = true
    · have hex : ∃ g ∈ graphs, g.name = gn := by
        have := List.any_eq_true.mp hg
        simpa using this
      rw [link, if_pos hg] at hok
      dsimp only at hok
      split at hok
      · cases hok
        exact hfk
      · cases hok
        intro e he
        rcases List.mem_append.mp he with hold | hnew
        · exact hfk e hold
        · simp only [List.mem_singleton] at hnew
          subst hnew
          exact hex
    · rw [link, if_neg hg] at hok
      cases hok

/-- Concrete witness for C5: linking into the empty graph registry fails
with `UnknownGraphError`, while after registering graph `g` a successful
link keeps every edge pointing at a registered graph. -/
theorem C5_link_requires_registered_graph_witness :
    link ([] : List UniformResourceGraphRow) [] "g" "n" "N1" "R1"
      = .error .UnknownGraphError ∧
    edgesGraphFkOk [⟨"g", none⟩] [⟨"g", "n", "N1", "R1", none⟩] := by
  constructor
  · exact (C5_link_requires_registered_graph [] [] "g" "n" "N1" "R1").1.mpr
      (by simp)
  · exact (C5_link_requires_registered_graph [⟨"g", none⟩] [] "g" "n" "N1"
      "R1").2 (by intro e he; cases he) [⟨"g", "n", "N1", "R1", none⟩] (by rfl)

/-! ## Row-level embedding: `orchestration_session_state` -/

/-- Foreign-key check for a nullable reference column: `NULL` passes,
otherwise the value must be a registered id. -/
def optFk (ids : List String) : Option String → Prop
  | none => True
  | some e => e ∈ ids

instance (ids : List String) (v : Option String) : Decidable (optFk ids v) := by
  cases v <;> simp only [optFk] <;> infer_instance

/-- One row of the `orchestration_session_state` table (this table carries
no housekeeping columns in the source). -/
structure OrchestrationSessionStateRow where
  orchestrationSessionStateId : String
  sessionId : String
  sessionEntryId : Option String
  fromState : String
  toState : String
  transitionResult : Option String
  transitionReason : Option String
  transitionedAt : Option String
  elaboration : Option String
  deriving DecidableEq, Repr

/-- Collision on the unique constraint actually declared in the source:
`unique().on(orchestrationSessionStateId, fromState, toState)` — the first
component is the row's own primary key (all three columns `NOT NULL`). -/
def ossDeclaredConflict (a b : OrchestrationSessionStateRow) : Prop :=
  a.orchestrationSessionStateId = b.orchestrationSessionStateId ∧
  a.fromState = b.fromState ∧ a.toState = b.toState

instance (a b : OrchestrationSessionStateRow) :
    Decidable (ossDeclaredConflict a b) := by
  unfold ossDeclaredConflict; infer_instance

/-- Validity of an `orchestration_session_state` table state against every
constraint declared in the source: primary-key uniqueness, the declared
unique triple, and the `session_id` / `session_entry_id` foreign keys. -/
def ossTableOk (sessionIds entryIds : List String)
    (rows : List OrchestrationSessionStateRow) : Prop :=
  rows.Pairwise (fun a b =>
    a.orchestrationSessionStateId ≠ b.orchestrationSessionStateId) ∧
  rows.Pairwise (fun a b => ¬ ossDeclaredConflict a b) ∧
  ∀ r ∈ rows, r.sessionId ∈ sessionIds ∧ optFk entryIds r.sessionEntryId

instance (sessionIds entryIds : List String)
    (rows : List OrchestrationSessionStateRow) :
    Decidable (ossTableOk sessionIds entryIds rows) := by
  unfold ossTableOk; infer_instance

/-- The uniqueness the spec claims: at most one row per
`(sessionId, fromState, toState)` owner transition. -/
def ossOwnerTransitionUnique (rows : List OrchestrationSessionStateRow) : Prop :=
  rows.Pairwise (fun a b => ¬ (a.sessionId = b.sessionId ∧
    a.fromState = b.fromState ∧ a.toState = b.toState))

instance (rows : List OrchestrationSessionStateRow) :
    Decidable (ossOwnerTransitionUnique rows) := by
  unfold ossOwnerTransitionUnique
  infer_instance

/-- Counterexample to claim C2: the source's unique constraint on
`orchestration_session_state` is `(orchestration_session_state_id,
from_state, to_state)` whose first component is the primary key, so it
does not enforce one row per owning session and transition.  A table with
two rows `ST1`, `ST2`, both owned by session `S1` and both recording the
transition `OPEN → RUNNING` (with reasons `r1` and `r2`), satisfies every
declared constraint while violating the claimed per-owner uniqueness. -/
theorem C2_counterexample :
    ¬ (∀ (sessionIds entryIds : List String)
        (rows : List OrchestrationSessionStateRow),
        ossTableOk sessionIds entryIds rows →
        ossOwnerTransitionUnique rows) := by
  intro h
  have hv : ossTableOk ["S1"] []
      [⟨"ST1", "S1", none, "OPEN", "RUNNING", some "\"ok\"", some "r1",
        some "t1", none⟩,
       ⟨"ST2", "S1", none, "OPEN", "RUNNING", some "\"ok\"", some "r2",
        some "t2", none⟩] := by decide
  have := h ["S1"] [] _ hv
  exact absurd this (by decide)

/-- Claim C2, amended: the unique constraint on
`orchestration_session_state` is `(orchestration_session_state_id,
from_state, to_state)`; since its first component is the table's primary
key, the constraint is implied by primary-key uniqueness and adds nothing,
so the store accepts multiple rows per `(sessionId, fromState, toState)` —
recording the same owner transition twice appends a second row (each
recording keeping its own result/reason) rather than overwriting. -/
theorem C2_orchestration_session_state_unique_amended :
    (orchestrationSessionState.primaryKey = ["orchestration_session_state_id"]
      ∧ orchestrationSessionState.uniques
        = [["orchestration_session_state_id", "from_state", "to_state"]])
    ∧ (∀ rows : List OrchestrationSessionStateRow,
        rows.Pairwise (fun a b =>
          a.orchestrationSessionStateId ≠ b.orchestrationSessionStateId) →
        rows.Pairwise (fun a b => ¬ ossDeclaredConflict a b))
    ∧ (ossTableOk ["S9"] []
        [⟨"ST8", "S9", none, "OPEN", "RUNNING", none, some "r1", some "t1",
          none⟩,
         ⟨"ST9", "S9", none, "OPEN", "RUNNING", none, some "r2", some "t2",
          none⟩]
      ∧ ¬ ossOwnerTransitionUnique
        [⟨"ST8", "S9", none, "OPEN", "RUNNING", none, some "r1", some "t1",
          none⟩,
         ⟨"ST9", "S9", none, "OPEN", "RUNNING", none, some "r2", some "t2",
          none⟩]) := by
  refine ⟨⟨rfl, rfl⟩, ?_, by decide, by decide⟩
  intro rows hpk
  exact hpk.imp (fun hne hconf => hne hconf.1)

/-- Concrete witness for the amended C2: the vacuity of the declared
unique triple, applied to a two-row table with distinct primary keys. -/
theorem C2_orchestration_session_state_unique_amended_witness :
    List.Pairwise (fun a b => ¬ ossDeclaredConflict a b)
      [(⟨"ST1", "S1", none, "A", "B", none, none, none, none⟩ :
          OrchestrationSessionStateRow),
       ⟨"ST2", "S1", none, "A", "B", none, none, none, none⟩] :=
  C2_orchestration_session_state_unique_amended.2.1
    [⟨"ST1", "S1", none, "A", "B", none, none, none, none⟩,
     ⟨"ST2", "S1", none, "A", "B", none, none, none, none⟩] (by decide)

/-! ## Row-level embedding: `orchestration_session_exec` -/

/-- One row of the `orchestration_session_exec` table (no housekeeping
columns in the source; `exec_status` is a `NOT NULL` integer). -/
structure OrchestrationSessionExecRow where
  orchestrationSessionExecId : String
  execNature : String
  sessionId : String
  sessionEntryId : Option String
  parentExecId : Option String
  «namespace» : Option String
  execIdentity : Option String
  execCode : String
  execStatus : Int
  inputText : Option String
  execErrorText : Option String
  outputText : Option String
  outputNature : Option String
  narrativeMd : Option String
  elaboration : Option String
  deriving DecidableEq, Repr

/-- The self-referential foreign key on `parent_exec_id`: a non-null
parent must be the primary key of some exec row (in any session). -/
def execParentFk (rows : List OrchestrationSessionExecRow) :
    Option String → Prop
  | none => True
  | some p => ∃ q ∈ rows, q.orchestrationSessionExecId = p

instance (rows : List OrchestrationSessionExecRow) (v : Option String) :
    Decidable (execParentFk rows v) := by
  cases v <;> simp only [execParentFk] <;> infer_instance

/-- Validity of an `orchestration_session_exec` table state against every
constraint declared in the source: primary-key uniqueness and the three
foreign keys (`session_id`, `session_entry_id`, self-referential
`parent_exec_id`). -/
def execTableOk (sessionIds entryIds : List String)
    (rows : List OrchestrationSessionExecRow) : Prop :=
  rows.Pairwise (fun a b =>
    a.orchestrationSessionExecId ≠ b.orchestrationSessionExecId) ∧
  ∀ r ∈ rows, r.sessionId ∈ sessionIds ∧ optFk entryIds r.sessionEntryId ∧
    execParentFk rows r.parentExecId

instance (sessionIds entryIds : List String)
    (rows : List OrchestrationSessionExecRow) :
    Decidable (execTableOk sessionIds entryIds rows) := by
  unfold execTableOk; infer_instance

/-- Counterexample to claim C8: the schema's only constraint on
`parent_exec_id` is the self-referential foreign key, which does not
restrict the parent to the same session.  A table with exec `E1` in
session `S1` and exec `E2` in session `S2` whose parent is `E1` satisfies
every declared constraint, so cross-session parenting is accepted, not
rejected. -/
theorem C8_counterexample :
    ¬ (∀ (sessionIds entryIds : List String)
        (rows : List OrchestrationSessionExecRow),
        execTableOk sessionIds entryIds rows →
        ∀ r ∈ rows, ∀ p, r.parentExecId = some p →
        ∀ q ∈ rows, q.orchestrationSessionExecId = p →
        q.sessionId = r.sessionId) := by
  intro h
  have hv : execTableOk ["S1", "S2"] []
      [⟨"E1", "stage", "S1", none, none, none, none, "code1", 0, none, none,
        none, none, none, none⟩,
       ⟨"E2", "stage", "S2", none, some "E1", none, none, "code2", 0, none,
        none, none, none, none, none⟩] := by decide
  have := h ["S1", "S2"] [] _ hv
    ⟨"E2", "stage", "S2", none, some "E1", none, none, "code2", 0, none,
      none, none, none, none, none⟩ (by decide) "E1" rfl
    ⟨"E1", "stage", "S1", none, none, none, none, "code1", 0, none, none,
      none, none, none, none⟩ (by decide) rfl
  exact absurd this (by decide)

/-- Claim C8, amended: a non-null `parentExecId` must reference an
existing exec row (enforced by the self-referential foreign key), and root
nodes carry a null parent; the schema does not restrict the parent to the
same orchestration session, so cross-session parenting is accepted. -/
theorem C8_exec_tree_amended :
    (orchestrationSessionExec.fkeys
      = [⟨["session_id"], "orchestration_session",
          ["orchestration_session_id"]⟩,
         ⟨["session_entry_id"], "orchestration_session_entry",
          ["orchestration_session_entry_id"]⟩,
         ⟨["parent_exec_id"], "orchestration_session_exec",
          ["orchestration_session_exec_id"]⟩]
      ∧ orchestrationSessionExec.uniques = [])
    ∧ (∀ (sessionIds entryIds : List String)
        (rows : List OrchestrationSessionExecRow),
        execTableOk sessionIds entryIds rows →
        ∀ r ∈ rows, ∀ p, r.parentExecId = some p →
        ∃ q ∈ rows, q.orchestrationSessionExecId = p)
    ∧ execTableOk ["S7", "S8"] []
        [⟨"E7", "stage", "S7", none, none, none, none, "c7", 0, none, none,
          none, none, none, none⟩,
         ⟨"E8", "stage", "S8", none, some "E7", none, none, "c8", 0, none,
          none, none, none, none, none⟩] := by
  refine ⟨⟨rfl, rfl⟩, ?_, by decide⟩
  intro sessionIds entryIds rows hok r hr p hp
  have := (hok.2 r hr).2.2
  rw [hp] at this
  exact this

/-- Concrete witness for the amended C8: in a valid one-root, one-child
table the child's non-null parent resolves to an existing exec row. -/
theorem C8_exec_tree_amended_witness :
    ∃ q ∈ [(⟨"E1", "stage", "S1", none, none, none, none, "c1", 0, none,
        none, none, none, none, none⟩ : OrchestrationSessionExecRow),
      ⟨"E2", "stage", "S1", none, some "E1", none, none, "c2", 0, none, none,
        none, none, none, none⟩],
      q.orchestrationSessionExecId = "E1" :=
  C8_exec_tree_amended.2.1 ["S1"] []
    [⟨"E1", "stage", "S1", none, none, none, none, "c1", 0, none, none, none,
      none, none, none⟩,
     ⟨"E2", "stage", "S1", none, some "E1", none, none, "c2", 0, none, none,
      none, none, none, none⟩] (by decide)
    ⟨"E2", "stage", "S1", none, some "E1", none, none, "c2", 0, none, none,
      none, none, none, none⟩ (by decide) "E1" rfl

/-! ## Row-level embedding: `ur_ingest_session` -/

/-- Errors surfaced by the store when a constraint rejects a write
(spec §7 taxonomy, plus the unique-key rejection of the underlying
SQLite store). -/
inductive StoreError where
  | ValidationError
  | ReferentialError
  | UniqueViolation
  deriving DecidableEq, Repr

/-- One row of the `ur_ingest_session` table.  `created_at` is the
housekeeping creation timestamp (nullable with a `CURRENT_TIMESTAMP`
default). -/
structure UrIngestSessionRow where
  urIngestSessionId : String
  deviceId : String
  behaviorId : Option String
  behaviorJson : Option String
  ingestStartedAt : String
  ingestFinishedAt : Option String
  sessionAgent : String
  elaboration : Option String
  createdAt : Option String
  createdBy : Option String
  updatedAt : Option String
  updatedBy : Option String
  deletedAt : Option String
  deletedBy : Option String
  activityLog : Option String
  deriving DecidableEq, Repr

/-- Collision on the `ur_ingest_session` unique key
`(device_id, created_at)` with SQLite `NULL` semantics: a `NULL`
`created_at` never collides. -/
def ingestSessionConflict (a b : UrIngestSessionRow) : Prop :=
  a.deviceId = b.deviceId ∧ a.createdAt = b.createdAt ∧ a.createdAt ≠ none

instance (a b : UrIngestSessionRow) : Decidable (ingestSessionConflict a b) := by
  unfold ingestSessionConflict; infer_instance

/-- Integrity state of the `ur_ingest_session` table: distinct primary
keys and no two rows colliding on `(device_id, created_at)`. -/
def ingestSessionTableOk (rows : List UrIngestSessionRow) : Prop :=
  rows.Pairwise (fun a b => a.urIngestSessionId ≠ b.urIngestSessionId) ∧
  rows.Pairwise (fun a b => ¬ ingestSessionConflict a b)

instance (rows : List UrIngestSessionRow) :
    Decidable (ingestSessionTableOk rows) := by
  unfold ingestSessionTableOk; infer_instance

/-- Insertion into `ur_ingest_session` under the constraints declared in
the source: the `device_id` foreign key must resolve, and the primary key
and the unique `(device_id, created_at)` key reject duplicates (SQLite
constraint enforcement for the declared schema). -/
def insertUrIngestSession (deviceIds : List String)
    (rows : List UrIngestSessionRow) (r : UrIngestSessionRow) :
    Except StoreError (List UrIngestSessionRow) :=
  if r.deviceId ∈ deviceIds then
    if rows.any (fun x => decide (x.urIngestSessionId = r.urIngestSessionId))
    then .error .UniqueViolation
    else if rows.any (fun x => decide (ingestSessionConflict x r))
    then .error .UniqueViolation
    else .ok (rows ++ [r])
  else .error .ReferentialError

/-- Claim C10: the ingest-session table is unique on
`(deviceId, createdAt)`.  (i) The declared unique key is exactly
`(device_id, created_at)`.  (ii) Inserting a session for a device that
already has a session row with the same (non-null) creation timestamp is
rejected by the store, leaving the table unchanged.  (iii) A successful
insert preserves the invariant that no two rows share a device and a
non-null creation timestamp. -/
theorem C10_ingest_session_unique_device_created_at :
    (urIngestSession.uniques = [["device_id", "created_at"]])
    ∧ (∀ (deviceIds : List String) (rows : List UrIngestSessionRow)
        (r x : UrIngestSessionRow), r.deviceId ∈ deviceIds → x ∈ rows →
        x.deviceId = r.deviceId → x.createdAt = r.createdAt →
        x.createdAt ≠ none →
        insertUrIngestSession deviceIds rows r = .error .UniqueViolation)
    ∧ (∀ (deviceIds : List String) (rows rows' : List UrIngestSessionRow)
        (r : UrIngestSessionRow), ingestSessionTableOk rows →
        insertUrIngestSession deviceIds rows r = .ok rows' →
        ingestSessionTableOk rows') := by
  refine ⟨rfl, ?_, ?_⟩
  · intro deviceIds rows r x hdev hx hxd hxc hxn
    rw [insertUrIngestSession, if_pos hdev]
    by_cases hpk : rows.any
        (fun x => decide (x.urIngestSessionId = r.urIngestSessionId)) = true
    · rw [if_pos hpk]
    · rw [if_neg hpk, if_pos]
      refine List.any_eq_true.mpr ⟨x, hx, ?_⟩
      simp only [decide_eq_true_eq]
      exact ⟨hxd, hxc, hxn⟩
  · intro deviceIds rows rows' r hok hins
    by_cases hdev : r.deviceId ∈ deviceIds
    · rw [insertUrIngestSession, if_pos hdev] at hins
      by_cases hpk : rows.any
          (fun x => decide (x.urIngestSessionId = r.urIngestSessionId)) = true
      · rw [if_pos hpk] at hins
        exact Except.noConfusion hins
      · rw [if_neg hpk] at hins
        by_cases hun : rows.any
            (fun x => decide (ingestSessionConflict x r)) = true
        · rw [if_pos hun] at hins
          exact Except.noConfusion hins
        · rw [if_neg hun] at hins
          cases hins
          constructor
          · rw [List.pairwise_append]
            refine ⟨hok.1, by simp, ?_⟩
            intro a ha b hb
            simp only [List.mem_singleton] at hb
            subst hb
            intro hid
            exact hpk (List.any_eq_true.mpr ⟨a, ha, by simp [hid]⟩)
          · rw [List.pairwise_append]
            refine ⟨hok.2, by simp, ?_⟩
            intro a ha b hb
            simp only [List.mem_singleton] at hb
            subst hb
            intro hconf
            exact hun (List.any_eq_true.mpr ⟨a, ha, by simp [hconf]⟩)
    · rw [insertUrIngestSession, if_neg hdev] at hins
      exact Except.noConfusion hins

/-- Concrete witness for C10: with device `D1` registered and one session
created at `t1`, inserting a second `D1` session with the same `created_at`
is rejected, and inserting at a different timestamp keeps integrity. -/
theorem C10_ingest_session_unique_device_created_at_witness :
    insertUrIngestSession ["D1"]
      [⟨"G1", "D1", none, none, "t1", none, "\"agent\"", none, some "t1",
        none, none, none, none, none, none⟩]
      ⟨"G2", "D1", none, none, "t1", none, "\"agent\"", none, some "t1",
        none, none, none, none, none, none⟩
      = .error .UniqueViolation ∧
    ingestSessionTableOk
      [⟨"G1", "D1", none, none, "t1", none, "\"agent\"", none, some "t1",
        none, none, none, none, none, none⟩,
       ⟨"G2", "D1", none, none, "t2", none, "\"agent\"", none, some "t2",
        none, none, none, none, none, none⟩] := by
  constructor
  · exact C10_ingest_session_unique_device_created_at.2.1 ["D1"]
      [⟨"G1", "D1", none, none, "t1", none, "\"agent\"", none, some "t1",
        none, none, none, none, none, none⟩]
      ⟨"G2", "D1", none, none, "t1", none, "\"agent\"", none, some "t1",
        none, none, none, none, none, none⟩
      ⟨"G1", "D1", none, none, "t1", none, "\"agent\"", none, some "t1",
        none, none, none, none, none, none⟩
      (by decide) (by decide) rfl rfl (by decide)
  · exact C10_ingest_session_unique_device_created_at.2.2 ["D1"]
      [⟨"G1", "D1", none, none, "t1", none, "\"agent\"", none, some "t1",
        none, none, none, none, none, none⟩]
      [⟨"G1", "D1", none, none, "t1", none, "\"agent\"", none, some "t1",
        none, none, none, none, none, none⟩,
       ⟨"G2", "D1", none, none, "t2", none, "\"agent\"", none, some "t2",
        none, none, none, none, none, none⟩]
      ⟨"G2", "D1", none, none, "t2", none, "\"agent\"", none, some "t2",
        none, none, none, none, none, none⟩
      (by decide) rfl

/-! ## Claim C6: the housekeeping envelope -/

/-- Counterexample to claim C6: not every persisted entity carries the
housekeeping envelope.  In the source, `orchestration_session` (like the
whole orchestration family) does not spread `...housekeeping` into its
columns, so it lacks `created_at` and the other envelope fields. -/
theorem C6_counterexample :
    ¬ (∀ t ∈ schemaTables, hasHousekeeping t = true) := by
  intro h
  exact absurd (h orchestrationSession (by decide)) (by decide)

/-- Claim C6, amended: the housekeeping envelope (creation/update/deletion
timestamp and actor plus activity log) is spread into most tables of the
schema, but not uniformly: exactly fourteen tables lack it, among them the
whole orchestration family named by the claim (`orchestration_session`,
`_entry`, `_state`, `_exec`, `_issue`, `_log`) together with
`orchestration_session_issue_relation`, the lineage-graph tables, and four
auxiliary tables; core ingest entities such as `device`,
`uniform_resource`, `uniform_resource_transform` and `ur_ingest_session`
do carry it. -/
theorem C6_housekeeping_amended :
    (schemaTables.filter (fun t => ! hasHousekeeping t)).map Table.name
      = ["sqlean_define", "sqlpage_files", "surveilr_table_size",
         "sqlpage_aide_navigation", "orchestration_session",
         "orchestration_session_entry", "orchestration_session_state",
         "orchestration_session_exec", "orchestration_session_issue",
         "orchestration_session_issue_relation", "orchestration_session_log",
         "uniform_resource_graph", "uniform_resource_edge",
         "surveilr_function_doc"]
    ∧ hasHousekeeping device = true
    ∧ hasHousekeeping uniformResource = true
    ∧ hasHousekeeping uniformResourceTransform = true
    ∧ hasHousekeeping urIngestSession = true := by
  exact ⟨by decide, by decide, by decide, by decide, by decide⟩

/-! ## Claim C7: structured-attribute validation -/

/-- The structured-attribute column names the spec's §6 bullet refers to:
front-matter (`frontmatter`, `content_fm_body_attrs`), diagnostics
(`diagnostics_json`, `ur_diagnostics`), arguments (`args_json`,
`arguments`), transformation lists (`ur_transformations`), and elaboration
(`elaboration`). -/
def structuredAttributeColumns : List String :=
  ["frontmatter", "content_fm_body_attrs", "diagnostics_json",
   "ur_diagnostics", "args_json", "arguments", "ur_transformations",
   "elaboration"]

/-- Counterexample to claim C7: not every structured-attribute field is
guarded by a write-time validity check.  The claim's own cited table
`orchestration_session_exec` has an `elaboration` column but declares no
`checkJSON` at all, so a malformed value there is not rejected by the
store. -/
theorem C7_counterexample :
    ¬ (∀ t ∈ schemaTables, ∀ c ∈ structuredAttributeColumns,
        c ∈ t.columns → c ∈ t.jsonChecked) := by
  intro h
  exact absurd
    (h orchestrationSessionExec (by decide) "elaboration" (by decide)
      (by decide)) (by decide)

/-- One row of the `orchestration_session` table (no housekeeping columns
in the source). -/
structure OrchestrationSessionRow where
  orchestrationSessionId : String
  deviceId : String
  orchestrationNatureId : String
  version : String
  orchStartedAt : Option String
  orchFinishedAt : Option String
  elaboration : Option String
  argsJson : Option String
  diagnosticsJson : Option String
  diagnosticsMd : Option String
  deriving DecidableEq, Repr

/-- The values of the three columns of `orchestration_session` wrapped in
`checkJSON` in the source: `elaboration`, `args_json`, `diagnostics_json`
(`diagnostics_md` is unchecked). -/
def orchSessionCheckedValues (r : OrchestrationSessionRow) :
    List (Option String) :=
  [r.elaboration, r.argsJson, r.diagnosticsJson]

/-- The `checkJSON` condition `json_valid(c) OR c IS NULL` for one value,
relative to an abstract JSON-validity predicate (SQLite's `json_valid` is
external to the repository). -/
def checkJSONPasses (jsonValid : String → Bool) : Option String → Bool
  | none => true
  | some s => jsonValid s

/-- All declared check constraints of `orchestration_session` pass. -/
def orchSessionChecksPass (jsonValid : String → Bool)
    (r : OrchestrationSessionRow) : Bool :=
  (orchSessionCheckedValues r).all (checkJSONPasses jsonValid)

/-- Insertion into `orchestration_session` under the constraints declared
in the source, with SQLite's evaluation order (CHECK constraints before
key and foreign-key enforcement): a row whose checked columns fail
`json_valid(c) OR c IS NULL` is rejected with `ValidationError` before any
write; then primary-key uniqueness and the `device_id` /
`orchestration_nature_id` foreign keys apply. -/
def insertOrchestrationSession (jsonValid : String → Bool)
    (deviceIds natureIds : List String)
    (rows : List OrchestrationSessionRow) (r : OrchestrationSessionRow) :
    Except StoreError (List OrchestrationSessionRow) :=
  if orchSessionChecksPass jsonValid r then
    if rows.any (fun x =>
        decide (x.orchestrationSessionId = r.orchestrationSessionId))
    then .error .UniqueViolation
    else if r.deviceId ∈ deviceIds ∧ r.orchestrationNatureId ∈ natureIds
    then .ok (rows ++ [r])
    else .error .ReferentialError
  else .error .ValidationError

/-- Claim C7, amended: the store enforces the `json_valid`-or-null check
only on the columns where the source declares `checkJSON` — there a write
is rejected with `ValidationError` exactly when some checked value is
non-null and fails to parse, and a rejected write leaves no trace; but the
coverage is not universal: the orchestration entry/state/exec/issue/log
tables declare no check at all, so their structured `elaboration` columns
are unguarded (application convention only). -/
theorem C7_structured_attribute_checks_amended :
    (uniformResource.jsonChecked
        = ["content_fm_body_attrs", "frontmatter", "elaboration"]
      ∧ orchestrationSession.jsonChecked
        = ["elaboration", "args_json", "diagnostics_json"]
      ∧ orchestrationSessionEntry.jsonChecked = []
      ∧ orchestrationSessionState.jsonChecked = []
      ∧ orchestrationSessionExec.jsonChecked = []
      ∧ orchestrationSessionIssue.jsonChecked = []
      ∧ orchestrationSessionLog.jsonChecked = []
      ∧ "elaboration" ∈ orchestrationSessionExec.columns)
    ∧ (∀ (jsonValid : String → Bool) (deviceIds natureIds : List String)
        (rows : List OrchestrationSessionRow) (r : OrchestrationSessionRow),
        (insertOrchestrationSession jsonValid deviceIds natureIds rows r
            = .error .ValidationError
          ↔ orchSessionChecksPass jsonValid r = false)
        ∧ ∀ rows', insertOrchestrationSession jsonValid deviceIds natureIds
            rows r = .ok rows' →
          (orchSessionChecksPass jsonValid r = true ∧ rows' = rows ++ [r])) := by
  refine ⟨⟨rfl, rfl, rfl, rfl, rfl, rfl, rfl, by decide⟩, ?_⟩
  intro jsonValid deviceIds natureIds rows r
  constructor
  · by_cases hc : orchSessionChecksPass jsonValid r = true
    · rw [insertOrchestrationSession, if_pos hc]
      constructor
      · intro herr
        by_cases hpk : rows.any (fun x =>
            decide (x.orchestrationSessionId = r.orchestrationSessionId))
            = true
        · rw [if_pos hpk] at herr
          cases herr
        · rw [if_neg hpk] at herr
          by_cases hfk : r.deviceId ∈ deviceIds
              ∧ r.orchestrationNatureId ∈ natureIds
          · rw [if_pos hfk] at herr
            exact Except.noConfusion herr
          · rw [if_neg hfk] at herr
            cases herr
      · intro hfalse
        rw [hc] at hfalse
        cases hfalse
    · have hc' : orchSessionChecksPass jsonValid r = false :=
        Bool.eq_false_iff.mpr hc
      rw [insertOrchestrationSession, if_neg hc]
      exact ⟨fun _ => hc', fun _ => rfl⟩
  · intro rows' hok
    by_cases hc : orchSessionChecksPass jsonValid r = true
    · rw [insertOrchestrationSession, if_pos hc] at hok
      by_cases hpk : rows.any (fun x =>
          decide (x.orchestrationSessionId = r.orchestrationSessionId)) = true
      · rw [if_pos hpk] at hok
        exact Except.noConfusion hok
      · rw [if_neg hpk] at hok
        by_cases hfk : r.deviceId ∈ deviceIds
            ∧ r.orchestrationNatureId ∈ natureIds
        · rw [if_pos hfk] at hok
          cases hok
          exact ⟨hc, rfl⟩
        · rw [if_neg hfk] at hok
          exact Except.noConfusion hok
    · rw [insertOrchestrationSession, if_neg hc] at hok
      exact Except.noConfusion hok

/-- Concrete witness for the amended C7: with a validity predicate
accepting exactly `null`, inserting an `orchestration_session` row whose
`args_json` is the malformed `oops(` is rejected with `ValidationError`,
while a row whose `args_json` is `null` passes the declared checks and is
appended. -/
theorem C7_structured_attribute_checks_amended_witness :
    insertOrchestrationSession (fun s => s = "null") ["D1"] ["N1"] []
      ⟨"OS1", "D1", "N1", "v1", none, none, none, some "oops(", none, none⟩
      = .error .ValidationError ∧
    (orchSessionChecksPass (fun s => s = "null")
        ⟨"OS2", "D1", "N1", "v1", none, none, none, some "null", none, none⟩
      = true ∧
      ([] : List OrchestrationSessionRow) ++
        [⟨"OS2", "D1", "N1", "v1", none, none, none, some "null", none, none⟩]
      = [] ++
        [⟨"OS2", "D1", "N1", "v1", none, none, none, some "null", none,
          none⟩]) := by
  constructor
  · exact (C7_structured_attribute_checks_amended.2 (fun s => s = "null")
      ["D1"] ["N1"] []
      ⟨"OS1", "D1", "N1", "v1", none, none, none, some "oops(", none,
        none⟩).1.mpr (by decide)
  · exact (C7_structured_attribute_checks_amended.2 (fun s => s = "null")
      ["D1"] ["N1"] []
      ⟨"OS2", "D1", "N1", "v1", none, none, none, some "null", none,
        none⟩).2 _ rfl

/-! ## Claim C9: `ur_ingest_resource_path_match_rule` tie-break -/

/-- One row of the `ur_ingest_resource_path_match_rule` table (note that
`priority` is a nullable `TEXT` column in the source). -/
structure UrIngestResourcePathMatchRuleRow where
  urIngestResourcePathMatchRuleId : String
  «namespace» : String
  regex : String
  flags : String
  nature : Option String
  priority : Option String
  description : Option String
  includeGlobPatterns : Option (List String)
  excludeGlobPatterns : Option (List String)
  elaboration : Option String
  createdAt : Option String
  createdBy : Option String
  updatedAt : Option String
  updatedBy : Option String
  deletedAt : Option String
  deletedBy : Option String
  activityLog : Option String
  deriving DecidableEq, Repr

/-- Every nonempty list has an element minimal for `f`. -/
theorem exists_min_by {α : Type} (f : α → Nat) (l : List α) (h : l ≠ []) :
    ∃ r ∈ l, ∀ s ∈ l, f r ≤ f s := by
  induction l with
  | nil => exact absurd rfl h
  | cons x xs ih =>
    cases xs with
    | nil => exact ⟨x, by simp, by simp⟩
    | cons y t =>
      obtain ⟨m, hm, hmin⟩ := ih (by simp)
      by_cases hx : f x ≤ f m
      · refine ⟨x, by simp, ?_⟩
        intro s hs
        rcases List.mem_cons.mp hs with h1 | h2
        · subst h1
          exact Nat.le_refl _
        · exact Nat.le_trans hx (hmin s h2)
      · refine ⟨m, List.mem_cons_of_mem x hm, ?_⟩
        intro s hs
        rcases List.mem_cons.mp hs with h1 | h2
        · subst h1
          exact Nat.le_of_lt (Nat.not_le.mp hx)
        · exact hmin s h2

/-- A successful `find?` splits its list into a prefix of failures, the
found element, and a remainder. -/
theorem find?_decomp {α : Type} {p : α → Bool} :
    ∀ {l : List α} {a : α}, l.find? p = some a →
    ∃ l1 l2, l = l1 ++ a :: l2 ∧ ∀ x ∈ l1, p x = false := by
  intro l
  induction l with
  | nil => intro a h; cases h
  | cons x xs ih =>
    intro a h
    by_cases hx : p x = true
    · rw [List.find?_cons_of_pos _ hx] at h
      cases h
      exact ⟨[], xs, rfl, by simp⟩
    · have hx' : p x = false := Bool.eq_false_iff.mpr hx
      rw [List.find?_cons_of_neg _ hx] at h
      obtain ⟨l1, l2, heq, hall⟩ := ih h
      refine ⟨x :: l1, l2, by rw [heq]; rfl, ?_⟩
      intro z hz
      rcases List.mem_cons.mp hz with h1 | h2
      · subst h1
        exact hx'
      · exact hall z h2

/-- Modelled from the spec: the path match/rewrite rule application
(§4.3) is not in `src/` — the repository holds only the
`ur_ingest_resource_path_match_rule` table of rules.  Following the spec's
words: a candidate path is tested against the match rules in priority
order and the applied rule is, among the matching rules, the one with the
lowest priority, declaration order breaking ties.  Whether a rule matches
(regex + flags + glob filters) and the numeric reading of the `TEXT`
`priority` column are external and abstracted as `matcher` and `pri`.
The selection returns the first-declared matching rule whose priority is
minimal among all matching rules. -/
def selectMatchRule
    (matcher : UrIngestResourcePathMatchRuleRow → String → Bool)
    (pri : UrIngestResourcePathMatchRuleRow → Nat)
    (rules : List UrIngestResourcePathMatchRuleRow) (path : String) :
    Option UrIngestResourcePathMatchRuleRow :=
  let ms := rules.filter (fun x => matcher x path)
  ms.find? (fun r => ms.all (fun s => decide (pri r ≤ pri s)))

/-- Claim C9: path-match tie-break.  (i) Whenever some rule matches, a
rule is applied.  (ii) The applied rule matches, its priority value is
lowest among all matching rules, and every matching rule declared earlier
has strictly greater priority — so with priorities 1 and 2 both matching
the priority-1 rule wins, and on priority ties the earlier-declared rule
wins. -/
theorem C9_path_match_rule_tie_break
    (matcher : UrIngestResourcePathMatchRuleRow → String → Bool)
    (pri : UrIngestResourcePathMatchRuleRow → Nat)
    (rules : List UrIngestResourcePathMatchRuleRow) (path : String) :
    ((∃ r ∈ rules, matcher r path = true) →
      ∃ r, selectMatchRule matcher pri rules path = some r)
    ∧ (∀ r, selectMatchRule matcher pri rules path = some r →
        (r ∈ rules ∧ matcher r path = true)
        ∧ (∀ s ∈ rules, matcher s path = true → pri r ≤ pri s)
        ∧ (∃ pre post,
            rules.filter (fun x => matcher x path) = pre ++ r :: post
            ∧ ∀ s ∈ pre, pri r < pri s)) := by
  constructor
  · rintro ⟨r0, hr0, hm0⟩
    have hms : r0 ∈ rules.filter (fun x => matcher x path) :=
      List.mem_filter.mpr ⟨hr0, hm0⟩
    obtain ⟨m, hm, hmin⟩ := exists_min_by pri
      (rules.filter (fun x => matcher x path)) (List.ne_nil_of_mem hms)
    have hsome : ((rules.filter (fun x => matcher x path)).find?
        (fun r => (rules.filter (fun x => matcher x path)).all
          (fun s => decide (pri r ≤ pri s)))).isSome := by
      rw [List.find?_isSome]
      refine ⟨m, hm, ?_⟩
      rw [List.all_eq_true]
      intro s hs
      exact decide_eq_true (hmin s hs)
    obtain ⟨r, hr⟩ := Option.isSome_iff_exists.mp hsome
    exact ⟨r, hr⟩
  · intro r hsel
    simp only [selectMatchRule] at hsel
    have hmem := List.mem_of_find?_eq_some hsel
    have hp := List.find?_some hsel
    have hminAll : ∀ s ∈ rules.filter (fun x => matcher x path),
        pri r ≤ pri s := by
      intro s hs
      exact of_decide_eq_true (List.all_eq_true.mp hp s hs)
    have hrr := List.mem_filter.mp hmem
    refine ⟨⟨hrr.1, hrr.2⟩, ?_, ?_⟩
    · intro s hs hsm
      exact hminAll s (List.mem_filter.mpr ⟨hs, hsm⟩)
    · obtain ⟨pre, post, heq, hpre⟩ := find?_decomp hsel
      refine ⟨pre, post, heq, ?_⟩
      intro s hspre
      have hsmem : s ∈ rules.filter (fun x => matcher x path) := by
        rw [heq]
        exact List.mem_append.mpr (Or.inl hspre)
      obtain ⟨t, ht, hnt⟩ := List.all_eq_false.mp (hpre s hspre)
      have htlt : pri t < pri s :=
        Nat.not_le.mp (fun hle => hnt (decide_eq_true hle))
      exact Nat.lt_of_le_of_lt (hminAll t ht) htlt

/-- Concrete witness for C9: two rules in namespace `default` both match
`/a/b.txt`; with priorities `1` and `2` the priority-1 rule is applied,
and with equal priorities the earlier-declared rule is applied. -/
theorem C9_path_match_rule_tie_break_witness :
    (∃ r, selectMatchRule (fun _ _ => true)
      (fun r => if r.priority = some "1" then 1 else 2)
      [⟨"MR1", "default", "[.]txt$", "i", some "text", some "1", none, none,
        none, none, none, none, none, none, none, none, none⟩,
       ⟨"MR2", "default", "b[.]txt$", "i", some "text", some "2", none, none,
        none, none, none, none, none, none, none, none, none⟩]
      "/a/b.txt" = some r)
    ∧ selectMatchRule (fun _ _ => true)
      (fun r => if r.priority = some "1" then 1 else 2)
      [⟨"MR1", "default", "[.]txt$", "i", some "text", some "1", none, none,
        none, none, none, none, none, none, none, none, none⟩,
       ⟨"MR2", "default", "b[.]txt$", "i", some "text", some "2", none, none,
        none, none, none, none, none, none, none, none, none⟩]
      "/a/b.txt"
      = some ⟨"MR1", "default", "[.]txt$", "i", some "text", some "1", none,
          none, none, none, none, none, none, none, none, none, none⟩
    ∧ selectMatchRule (fun _ _ => true)
      (fun r => if r.priority = some "1" then 1 else 2)
      [⟨"MR3", "default", "[.]txt$", "i", some "text", some "1", none, none,
        none, none, none, none, none, none, none, none, none⟩,
       ⟨"MR4", "default", "b[.]txt$", "i", some "text", some "1", none, none,
        none, none, none, none, none, none, none, none, none⟩]
      "/a/b.txt"
      = some ⟨"MR3", "default", "[.]txt$", "i", some "text", some "1", none,
          none, none, none, none, none, none, none, none, none, none⟩ := by
  refine ⟨?_, by decide, by decide⟩
  exact (C9_path_match_rule_tie_break (fun _ _ => true)
    (fun r => if r.priority = some "1" then 1 else 2)
    [⟨"MR1", "default", "[.]txt$", "i", some "text", some "1", none, none,
      none, none, none, none, none, none, none, none, none⟩,
     ⟨"MR2", "default", "b[.]txt$", "i", some "text", some "2", none, none,
      none, none, none, none, none, none, none, none, none⟩]
    "/a/b.txt").1
    ⟨⟨"MR1", "default", "[.]txt$", "i", some "text", some "1", none, none,
      none, none, none, none, none, none, none, none, none⟩, by decide, rfl⟩

end SurveilrStd
